import Mathlib

/-!
Verification of the kavastu-tracker backtesting core (`src/backtester.py`,
`src/screener.py`, `src/ma_calculator.py`, `src/fundamentals.py`) against its
natural-language specification.  Python floats become exact rationals, pandas
NaN cells become `Option.none`, Python dicts become association lists with
dict update and delete semantics, and pandas positional slicing (`tail`,
`iloc`) is expressed through explicit indices.  Each definition's comment
names the source lines it embeds.
-/

namespace Kavastu

/-! ## Basic helpers -/

/-- Python `int(q)` truncates toward zero. -/
def pyIntTrunc (q : ℚ) : ℤ := if q < 0 then -(⌊-q⌋) else ⌊q⌋

/-- Python `round(x, 1)` uses round-half-to-even, modelled on exact rationals:
the integer nearest to `x*10` (ties to the even integer), divided by 10. -/
def roundHalfEven (x : ℚ) : ℤ :=
  if x - ⌊x⌋ < 1 / 2 then ⌊x⌋
  else if (1 : ℚ) / 2 < x - ⌊x⌋ then ⌊x⌋ + 1
  else if Even ⌊x⌋ then ⌊x⌋ else ⌊x⌋ + 1

/-- Python `round(x, 1)`. -/
def pyRound1 (x : ℚ) : ℚ := (roundHalfEven (x * 10) : ℚ) / 10

/-- Association-list lookup, mirroring Python `dict[k]` / `k in dict`. -/
def lookupA {α : Type} : List (String × α) → String → Option α
  | [], _ => none
  | (k', v) :: t, k => if k' = k then some v else lookupA t k

/-- Association-list assignment `d[k] = v`: replaces in place when the key is
present, appends otherwise (Python dict insertion-order semantics). -/
def updateA {α : Type} : List (String × α) → String → α → List (String × α)
  | [], k, v => [(k, v)]
  | (k', v') :: t, k, v => if k' = k then (k, v) :: t else (k', v') :: updateA t k v

/-! ## Portfolio state machine (backtester.py lines 13-211) -/

/-- One holding: `{'shares': int, 'entry_price': float}` (backtester.py line 19). -/
structure Holding where
  shares : ℤ
  entry_price : ℚ
deriving DecidableEq, Repr

/-- `Portfolio` state (backtester.py lines 16-23). -/
structure Portfolio where
  initial_capital : ℚ
  cash : ℚ
  holdings : List (String × Holding)
  total_dividends : ℚ
  total_isk_tax : ℚ
  peak_value : ℚ
deriving DecidableEq, Repr

/-- `Portfolio.__init__` (backtester.py lines 16-23). -/
def Portfolio.init (initial_capital : ℚ) : Portfolio :=
  ⟨initial_capital, initial_capital, [], 0, 0, initial_capital⟩

/-- `Portfolio.get_total_value` (backtester.py lines 25-31): cash plus
`shares * current_prices.get(ticker, 0)` summed over holdings. -/
def Portfolio.get_total_value (p : Portfolio) (current_prices : List (String × ℚ)) : ℚ :=
  p.cash + (p.holdings.map fun e => (e.2.shares : ℚ) * ((lookupA current_prices e.1).getD 0)).sum

/-- `Portfolio.buy` (backtester.py lines 37-68).  Returns the Python return
value paired with the post-state (`self` after the call). -/
def Portfolio.buy (p : Portfolio) (ticker : String) (amount price transaction_cost : ℚ) :
    Bool × Portfolio :=
  let cost_with_fees := amount * (1 + transaction_cost)
  if cost_with_fees > p.cash then (false, p)
  else
    let shares := pyIntTrunc (amount / price)
    if shares ≤ 0 then (false, p)
    else
      let actual_cost := (shares : ℚ) * price * (1 + transaction_cost)
      let holdings' :=
        match lookupA p.holdings ticker with
        | some h =>
            let old_value := (h.shares : ℚ) * h.entry_price
            let new_value := (shares : ℚ) * price
            let total_shares := h.shares + shares
            let avg_price := (old_value + new_value) / (total_shares : ℚ)
            updateA p.holdings ticker ⟨total_shares, avg_price⟩
        | none => updateA p.holdings ticker ⟨shares, price⟩
      (true, { p with holdings := holdings', cash := p.cash - actual_cost })

/-- `Portfolio.sell` (backtester.py lines 70-80): sells all shares of a held
ticker, else fails.  `del self.holdings[ticker]` removes the key. -/
def Portfolio.sell (p : Portfolio) (ticker : String) (price transaction_cost : ℚ) :
    Bool × Portfolio :=
  match lookupA p.holdings ticker with
  | none => (false, p)
  | some h =>
      let proceeds := (h.shares : ℚ) * price * (1 - transaction_cost)
      (true, { p with cash := p.cash + proceeds,
                      holdings := p.holdings.filter fun e => e.1 ≠ ticker })

/-- `Portfolio.pay_isk_tax` (backtester.py lines 130-167).  Returns the tax
paid paired with the post-state. -/
def Portfolio.pay_isk_tax (p : Portfolio) (portfolio_value : ℚ) (year : ℕ) : ℚ × Portfolio :=
  let tax_rate : ℚ := if year ≥ 2026 then 0.01065 else 0.01
  let tax_free_amount : ℚ := if year ≥ 2026 then 300000 else 150000
  if portfolio_value ≤ tax_free_amount then (0, p)
  else
    let taxable_amount := portfolio_value - tax_free_amount
    let isk_tax := taxable_amount * tax_rate
    (isk_tax, { p with cash := p.cash - isk_tax,
                       total_isk_tax := p.total_isk_tax + isk_tax })

/-- `Portfolio.get_drawdown_adjustment` (backtester.py lines 169-211): updates
the peak-value high-water mark, then maps the drawdown percentage to the fixed
size-multiplier bands.  Returns `(drawdown_pct, size_multiplier, risk_level)`
paired with the post-state. -/
def Portfolio.get_drawdown_adjustment (p : Portfolio) (current_prices : List (String × ℚ)) :
    (ℚ × ℚ × String) × Portfolio :=
  let current_value := p.get_total_value current_prices
  let peak' := if current_value > p.peak_value then current_value else p.peak_value
  let p' := { p with peak_value := peak' }
  let drawdown_pct := (peak' - current_value) / peak' * 100
  if drawdown_pct < 5 then ((drawdown_pct, 1, "NORMAL"), p')
  else if drawdown_pct < 10 then ((drawdown_pct, 0.85, "CAUTIOUS"), p')
  else if drawdown_pct < 15 then ((drawdown_pct, 0.70, "REDUCE"), p')
  else if drawdown_pct < 20 then ((drawdown_pct, 0.60, "DEFENSIVE"), p')
  else ((drawdown_pct, 0.50, "MAX_DEFENSIVE"), p')

/-- Drawdown band multiplier exactly as the spec words it: "<5%→1.00,
<10%→0.85, <15%→0.70, <20%→0.60, else→0.50". -/
def specBandMultiplier (drawdown_pct : ℚ) : ℚ :=
  if drawdown_pct < 5 then 1
  else if drawdown_pct < 10 then 0.85
  else if drawdown_pct < 15 then 0.70
  else if drawdown_pct < 20 then 0.60
  else 0.50

/-! ## Indicator engine (ma_calculator.py) -/

/-- `calculate_ma` (ma_calculator.py lines 6-17): `prices.rolling(window).mean()`.
Entry `i` is the mean of the `window` prices ending at `i`, `NaN` (`none`) for
the first `window − 1` positions. -/
def calculate_ma (prices : List ℚ) (window : ℕ) : List (Option ℚ) :=
  (List.range prices.length).map fun i =>
    if window ≤ i + 1 then
      some (((prices.drop (i + 1 - window)).take window).sum / window)
    else none

/-- A price DataFrame after `calculate_ma50_ma200`: the `Close` and `High`
columns plus the three moving-average columns. -/
structure ScoreDF where
  closes : List ℚ
  highs : List ℚ
  ma50 : List (Option ℚ)
  ma100 : List (Option ℚ)
  ma200 : List (Option ℚ)

/-- `calculate_ma50_ma200` (ma_calculator.py lines 20-41): adds MA50, MA100 and
MA200 columns computed from `Close`. -/
def calculate_ma50_ma200 (closes highs : List ℚ) : ScoreDF :=
  ⟨closes, highs, calculate_ma closes 50, calculate_ma closes 100, calculate_ma closes 200⟩

/-- Result of `detect_crossover` (ma_calculator.py lines 85-163); only the
fields the screener consumes are modelled (`current_position`,
`distance_from_ma200` and `ma50_above_ma200` are computed but never read by
`calculate_stock_score`). -/
structure CrossInfo where
  crossed_below_ma200 : Bool
  crossed_above_ma200 : Bool
  days_since_crossover : Option ℕ
deriving DecidableEq, Repr

/-- The all-false initialisation of the `detect_crossover` result dict. -/
def crossInfoNone : CrossInfo := ⟨false, false, none⟩

/-- `detect_crossover` (ma_calculator.py lines 85-163).  `recent = df.tail(lookback+1)`
is expressed through the base index `b = n − (lookback+1)`; the loop compares
`Close` against `MA200` at consecutive positions, skipping NaN MA200 cells,
recording `days_since = len(recent) − i − 2` for the latest crossing found. -/
def detect_crossover (df : ScoreDF) (lookback : ℕ) : CrossInfo :=
  let n := df.closes.length
  if n < lookback + 1 then crossInfoNone
  else
    let b := n - (lookback + 1)
    if (List.range (lookback + 1)).all (fun i => ((df.ma200[b + i]?).join).isNone) then
      crossInfoNone
    else
      match (df.ma200[n - 1]?).join with
      | none => crossInfoNone
      | some _ =>
          (List.range lookback).foldl
            (fun st i =>
              match df.closes[b + i]?, (df.ma200[b + i]?).join,
                    df.closes[b + i + 1]?, (df.ma200[b + i + 1]?).join with
              | some pc, some pm, some nc, some nm =>
                  let st1 :=
                    if pc ≥ pm ∧ nc < nm then
                      { st with crossed_below_ma200 := true,
                                days_since_crossover := some (lookback - 1 - i) }
                    else st
                  if pc ≤ pm ∧ nc > nm then
                    { st1 with crossed_above_ma200 := true,
                               days_since_crossover := some (lookback - 1 - i) }
                  else st1
              | _, _, _, _ => st)
            crossInfoNone

/-- `calculate_ma200_slope` (ma_calculator.py lines 166-194): difference of the
MA200 values at the ends of the trailing `lookback` window, over `lookback`;
0.0 whenever the data is too short or either endpoint is NaN. -/
def calculate_ma200_slope (df : ScoreDF) (lookback : ℕ) : ℚ :=
  if df.closes.length < lookback then 0
  else
    let b := df.ma200.length - lookback
    if (List.range lookback).all (fun i => ((df.ma200[b + i]?).join).isNone) then 0
    else
      match (df.ma200[b]?).join, (df.ma200[df.ma200.length - 1]?).join with
      | some ma200_start, some ma200_end => (ma200_end - ma200_start) / lookback
      | _, _ => 0

/-- `df['Close'].diff()` (ma_calculator.py line 278).  The first entry of
pandas `diff` is NaN; since `delta.where(delta > 0, 0)` maps NaN to 0 anyway,
that entry is modelled directly as 0. -/
def rsiDeltas (prices : List ℚ) : List ℚ :=
  0 :: List.zipWith (fun a b => a - b) (prices.drop 1) prices

/-- `gain = delta.where(delta > 0, 0)` (ma_calculator.py line 281). -/
def rsi_gain (prices : List ℚ) : List ℚ :=
  (rsiDeltas prices).map fun d => if 0 < d then d else 0

/-- `loss = -delta.where(delta < 0, 0)` (ma_calculator.py line 282). -/
def rsi_loss (prices : List ℚ) : List ℚ :=
  (rsiDeltas prices).map fun d => -(if d < 0 then d else 0)

/-- `avg_gain` (ma_calculator.py line 285): rolling mean of the gains. -/
def rsi_avg_gain (prices : List ℚ) (period : ℕ) : List (Option ℚ) :=
  calculate_ma (rsi_gain prices) period

/-- `avg_loss` (ma_calculator.py line 286): rolling mean of the losses. -/
def rsi_avg_loss (prices : List ℚ) (period : ℕ) : List (Option ℚ) :=
  calculate_ma (rsi_loss prices) period

/-- `calculate_rsi` (ma_calculator.py lines 259-292): `rs = avg_gain/avg_loss`,
`rsi = 100 − 100/(1+rs)`.  The division is IEEE float division as pandas
performs it: `g/0 = +inf` for `g > 0` (whence `rsi = 100`), `0/0 = NaN`
(whence `rsi = NaN`); no error is raised. -/
def calculate_rsi (prices : List ℚ) (period : ℕ) : List (Option ℚ) :=
  (List.range prices.length).map fun i =>
    match ((rsi_avg_gain prices period)[i]?).join, ((rsi_avg_loss prices period)[i]?).join with
    | some g, some l =>
        if l = 0 then (if g = 0 then none else some 100)
        else some (100 - 100 / (1 + g / l))
    | _, _ => none

/-- `ewm(span, adjust=False).mean()` recurrence after the seed:
`ema[t] = ema[t-1] + α(price[t] − ema[t-1])` (ma_calculator.py lines 319-323). -/
def ewmFrom (alpha prev : ℚ) : List ℚ → List ℚ
  | [] => []
  | x :: rest => (prev + alpha * (x - prev)) :: ewmFrom alpha (prev + alpha * (x - prev)) rest

/-- `series.ewm(span=span, adjust=False).mean()`, seeded from the first value,
with `α = 2/(span+1)`. -/
def ewmMean (prices : List ℚ) (span : ℕ) : List ℚ :=
  match prices with
  | [] => []
  | x :: rest => x :: ewmFrom (2 / ((span : ℚ) + 1)) x rest

/-- `calculate_macd` (ma_calculator.py lines 295-326): MACD line, signal line
and histogram. -/
def calculate_macd (prices : List ℚ) (fast slow signal : ℕ) :
    List ℚ × List ℚ × List ℚ :=
  let macd_line := List.zipWith (fun a b => a - b) (ewmMean prices fast) (ewmMean prices slow)
  let signal_line := ewmMean macd_line signal
  let histogram := List.zipWith (fun a b => a - b) macd_line signal_line
  (macd_line, signal_line, histogram)

/-- Result of `detect_macd_crossover` (ma_calculator.py lines 329-387). -/
structure MacdInfo where
  bullish_crossover : Bool
  bearish_crossover : Bool
  macd_positive : Bool
  histogram_rising : Bool
deriving DecidableEq, Repr

/-- The all-false initialisation of the `detect_macd_crossover` result dict. -/
def macdInfoNone : MacdInfo := ⟨false, false, false, false⟩

/-- `detect_macd_crossover` (ma_calculator.py lines 329-387) on the MACD,
signal and histogram columns (the columns contain no NaN, being `ewm` outputs,
so the loop's NaN skips never fire).  `recent = df.tail(lookback+1)` is
expressed through the base index `b`. -/
def detect_macd_crossover (macd signal hist : List ℚ) (lookback : ℕ) : MacdInfo :=
  let n := macd.length
  if n < lookback + 1 then macdInfoNone
  else
    let b := n - (lookback + 1)
    match macd[n - 1]?, signal[n - 1]? with
    | some current_macd, some _ =>
        let pos := current_macd > 0
        let rising :=
          match hist[hist.length - 1]?, hist[hist.length - 2]? with
          | some h1, some h2 => h1 > h2
          | _, _ => false
        let flags :=
          (List.range lookback).foldl
            (fun st i =>
              match macd[b + i]?, signal[b + i]?, macd[b + i + 1]?, signal[b + i + 1]? with
              | some pm, some ps, some nm, some ns =>
                  let st1 := if pm ≤ ps ∧ nm > ns then (true, st.2) else st
                  if pm ≥ ps ∧ nm < ns then (st1.1, true) else st1
              | _, _, _, _ => st)
            (false, false)
        ⟨flags.1, flags.2, pos, rising⟩
    | _, _ => macdInfoNone

/-- `get_52_week_high` (ma_calculator.py lines 390-404): max of the `High`
column over the last `min(252, len)` bars. -/
def get_52_week_high (highs : List ℚ) : Option ℚ :=
  if highs.length < 252 then highs.max?
  else (highs.drop (highs.length - 252)).max?

/-! ## Screener (screener.py, fundamentals.py) -/

/-- The fundamental ratios consumed by `calculate_quality_score`
(fundamentals.py lines 25-55); `none` models a missing yfinance field, and
`pays_dividend` is the truthiness of a positive dividend yield. -/
structure Fundamentals where
  revenue_growth : Option ℚ
  profit_margin : Option ℚ
  roe : Option ℚ
  debt_to_equity : Option ℚ
  pays_dividend : Bool
deriving DecidableEq, Repr

/-- Revenue-growth block of `calculate_quality_score` (fundamentals.py lines
103-114): 0-8 points. -/
def revenueGrowthPoints (revenue_growth : Option ℚ) : ℚ :=
  match revenue_growth with
  | some rg =>
      if rg > 0.15 then 8 else if rg > 0.10 then 6
      else if rg > 0.05 then 4 else if rg > 0 then 2 else 0
  | none => 0

/-- Profit-margin block of `calculate_quality_score` (fundamentals.py lines
117-127): 0-6 points. -/
def profitMarginPoints (profit_margin : Option ℚ) : ℚ :=
  match profit_margin with
  | some pm =>
      if pm > 0.15 then 6 else if pm > 0.10 then 4 else if pm > 0.05 then 2 else 0
  | none => 0

/-- ROE block of `calculate_quality_score` (fundamentals.py lines 129-138):
0-6 points. -/
def roePoints (roe : Option ℚ) : ℚ :=
  match roe with
  | some r =>
      if r > 0.20 then 6 else if r > 0.15 then 4 else if r > 0.10 then 2 else 0
  | none => 0

/-- Dividend-payer block of `calculate_quality_score` (fundamentals.py lines
140-143): 0 or 3 points. -/
def dividendPoints (pays_dividend : Bool) : ℚ :=
  if pays_dividend then 3 else 0

/-- Debt block of `calculate_quality_score` (fundamentals.py lines 145-153):
0-2 points (`debt_to_equity` is a percentage in yfinance). -/
def debtPoints (debt_to_equity : Option ℚ) : ℚ :=
  match debt_to_equity with
  | some de => if de < 100 then 2 else if de < 200 then 1 else 0
  | none => 0

/-- `calculate_quality_score` (fundamentals.py lines 64-155): the sum of the
five scoring blocks. -/
def calculate_quality_score (f : Fundamentals) : ℚ :=
  revenueGrowthPoints f.revenue_growth + profitMarginPoints f.profit_margin +
    roePoints f.roe + dividendPoints f.pays_dividend + debtPoints f.debt_to_equity

/-- `calculate_stock_return` (screener.py lines 10-18): percentage return over
`days` bars, 0.0 when the series is shorter than `days`. -/
def calculate_stock_return (closes : List ℚ) (days : ℕ) : ℚ :=
  if closes.length < days then 0
  else
    match closes.getLast?, closes[closes.length - days]? with
    | some current_price, some past_price => (current_price - past_price) / past_price * 100
    | _, _ => 0

/-- Triple-MA trend points (screener.py lines 101-120): 15 when
MA50 > MA100 > MA200, 10 when only MA50 > MA200 (also the dual-MA fallback
when MA100 is NaN), 0 otherwise or when MA50 is NaN. -/
def triplePoints (ma50 ma100 : Option ℚ) (ma200 : ℚ) : ℚ :=
  match ma50 with
  | none => 0
  | some m50 =>
      match ma100 with
      | some m100 => if m50 > m100 ∧ m100 > ma200 then 15 else if m50 > ma200 then 10 else 0
      | none => if m50 > ma200 then 10 else 0

/-- Relative-strength points (screener.py lines 146, 155):
`min(15, max(0, rs * 0.5))`. -/
def rsPoints (rs : ℚ) : ℚ := min 15 (max 0 (rs * 0.5))

/-- 52-week-high proximity points (screener.py lines 163-172): 0 when the high
is missing or non-positive (`if high_52w and high_52w > 0`), else
`min(15, price/high * 15)`. -/
def highPoints (current_price : ℚ) (highs : List ℚ) : ℚ :=
  match get_52_week_high highs with
  | some high_52w => if high_52w ≠ 0 ∧ high_52w > 0
      then min 15 (current_price / high_52w * 15) else 0
  | none => 0

/-- RSI block of the Phase-2 indicator confirmation (screener.py lines
196-214): +10/+7/+5 in the bands, −5 when overbought, 0 on NaN. -/
def rsiBandPoints (current_rsi : Option ℚ) : ℚ :=
  match current_rsi with
  | none => 0
  | some r =>
      if 50 ≤ r ∧ r ≤ 60 then 10
      else if 60 < r ∧ r ≤ 70 then 7
      else if 40 ≤ r ∧ r < 50 then 5
      else if r > 70 then -5
      else 0

/-- MACD block of the indicator confirmation (screener.py lines 216-233). -/
def macdBandPoints (info : MacdInfo) : ℚ :=
  (if info.bullish_crossover then 10
   else if info.macd_positive ∧ info.histogram_rising then 7
   else if info.macd_positive then 4
   else 0) +
  (if info.bearish_crossover then -10 else 0)

/-- The indicator-confirmation total: RSI banding plus MACD points, both
computed from `Close` exactly as the screener does when the columns are
absent. -/
def indicatorConfirmationPoints (df : ScoreDF) : ℚ :=
  let m := calculate_macd df.closes 12 26 9
  rsiBandPoints (((calculate_rsi df.closes 14).getLast?).join) +
    macdBandPoints (detect_macd_crossover m.1 m.2.1 m.2.2 5)

/-- The fields of the screener's metrics dict consumed downstream. -/
structure ScoreMetrics where
  score : ℚ
  distance_ma200 : ℚ
deriving DecidableEq, Repr

/-- `calculate_stock_score` (screener.py lines 21-240).  The empty-frame and
NaN-MA200 paths return the zeroed metrics (the `except` handler and line 88);
a price at or below MA200 short-circuits with score 0 (lines 96-99); otherwise
the additive components accumulate and the final score is `round(score, 1)`
(line 235). -/
def calculate_stock_score (df : ScoreDF) (benchmark_returns : ℚ × ℚ)
    (include_fundamentals : Bool) (fund : Fundamentals)
    (use_indicator_confirmation : Bool) : ScoreMetrics :=
  match df.closes.getLast? with
  | none => ⟨0, 0⟩
  | some current_price =>
      match (df.ma200.getLast?).join with
      | none => ⟨0, 0⟩
      | some ma200 =>
          let distance := (current_price - ma200) / ma200 * 100
          if current_price > ma200 then
            let total := 20
              + triplePoints ((df.ma50.getLast?).join) ((df.ma100.getLast?).join) ma200
              + (if calculate_ma200_slope df 20 > 0 then 10 else 0)
              + (if (detect_crossover df 7).crossed_below_ma200 then -20 else 0)
              + rsPoints (calculate_stock_return df.closes 60 - benchmark_returns.1)
              + rsPoints (calculate_stock_return df.closes 120 - benchmark_returns.2)
              + min 15 (distance * 1.5)
              + highPoints current_price df.highs
              + (if include_fundamentals then calculate_quality_score fund else 0)
              + (if use_indicator_confirmation then indicatorConfirmationPoints df else 0)
            ⟨pyRound1 total, distance⟩
          else ⟨0, distance⟩

/-! ## Backtester (backtester.py lines 552-705) -/

/-- Rebalance frequency: the two values `backtest_strategy` recognises. -/
inductive Frequency where
  | monthly : Frequency
  | weekly : Frequency
deriving DecidableEq, Repr

/-- A calendar date as `datetime` holds it. -/
structure Date where
  y : ℕ
  m : ℕ
  d : ℕ
deriving DecidableEq, Repr

/-- Gregorian leap year, as Python's `datetime`/`calendar` define it. -/
def isLeap (y : ℕ) : Prop := (y % 4 = 0 ∧ y % 100 ≠ 0) ∨ y % 400 = 0

instance (y : ℕ) : Decidable (isLeap y) := by unfold isLeap; infer_instance

/-- Days in month `m` of year `y` (months 1..12). -/
def daysInMonth (y m : ℕ) : ℕ :=
  if m = 1 then 31 else if m = 2 then (if isLeap y then 29 else 28)
  else if m = 3 then 31 else if m = 4 then 30 else if m = 5 then 31
  else if m = 6 then 30 else if m = 7 then 31 else if m = 8 then 31
  else if m = 9 then 30 else if m = 10 then 31 else if m = 11 then 30
  else if m = 12 then 31 else 0

/-- Days in the months of year `y` strictly before month `m`. -/
def daysBefore (y : ℕ) : ℕ → ℕ
  | 0 => 0
  | m + 1 => daysBefore y m + daysInMonth y m

/-- 365 or 366. -/
def daysInYear (y : ℕ) : ℕ := if isLeap y then 366 else 365

/-- Total days in all years strictly before `y`. -/
def yearDaysBefore : ℕ → ℕ
  | 0 => 0
  | y + 1 => yearDaysBefore y + daysInYear y

/-- Linear day number of a date (an independent day count used to state what
"exactly 7 days apart" means). -/
def toNum (dt : Date) : ℕ := yearDaysBefore dt.y + daysBefore dt.y dt.m + dt.d

/-- A date `datetime` would accept. -/
def validDate (dt : Date) : Prop :=
  1 ≤ dt.m ∧ dt.m ≤ 12 ∧ 1 ≤ dt.d ∧ dt.d ≤ daysInMonth dt.y dt.m

instance (dt : Date) : Decidable (validDate dt) := by unfold validDate; infer_instance

/-- The calendar successor of a valid date. -/
def nextDay (dt : Date) : Date :=
  if dt.d < daysInMonth dt.y dt.m then ⟨dt.y, dt.m, dt.d + 1⟩
  else if dt.m < 12 then ⟨dt.y, dt.m + 1, 1⟩
  else ⟨dt.y + 1, 1, 1⟩

/-- `current += timedelta(days=n)`: `n` calendar-successor steps. -/
def addDays : ℕ → Date → Date
  | 0, dt => dt
  | n + 1, dt => nextDay (addDays n dt)

/-- `datetime` comparison: lexicographic on (year, month, day). -/
def dateLe (a b : Date) : Prop :=
  a.y < b.y ∨ (a.y = b.y ∧ (a.m < b.m ∨ (a.m = b.m ∧ a.d ≤ b.d)))

instance (a b : Date) : Decidable (dateLe a b) := by unfold dateLe; infer_instance

/-- The monthly step of `generate_rebalance_dates` (backtester.py lines
561-566): `current.replace(...)` moves to the *same day* of the next month
(January of the next year after December); `replace` raises `ValueError`
(modelled as `none`) when that day does not exist in the target month. -/
def monthlyNext (dt : Date) : Option Date :=
  let y' := if dt.m = 12 then dt.y + 1 else dt.y
  let m' := if dt.m = 12 then 1 else dt.m + 1
  if dt.d ≤ daysInMonth y' m' then some ⟨y', m', dt.d⟩ else none

/-- `generate_rebalance_dates` (backtester.py lines 552-570): append dates
while `current <= end`, stepping monthly via `replace` or weekly via
`timedelta(days=7)`.  `fuel` bounds the loop; `none` models either exhausted
fuel or the `ValueError` a monthly `replace` can raise. -/
def generate_rebalance_dates : ℕ → Date → Date → Frequency → Option (List Date)
  | 0, _, _, _ => none
  | fuel + 1, current, endD, .monthly =>
      if dateLe current endD then
        match monthlyNext current with
        | none => none
        | some nxt => (generate_rebalance_dates fuel nxt endD .monthly).map (current :: ·)
      else some []
  | fuel + 1, current, endD, .weekly =>
      if dateLe current endD then
        (generate_rebalance_dates fuel (addDays 7 current) endD .weekly).map (current :: ·)
      else some []

/-- One provider price bar; `date` is an abstract ordered day index. -/
structure Bar where
  date : ℕ
  close : ℚ
  high : ℚ
deriving DecidableEq, Repr

/-- `df[df.index <= as_of_date]` (backtester.py line 585). -/
def filterLe (as_of_date : ℕ) (history : List Bar) : List Bar :=
  history.filter fun bar => bar.date ≤ as_of_date

/-- A market-data provider: full price history per ticker, as
`fetch_stock_data(ticker, period='max')` returns it. -/
def Provider : Type := String → List Bar

/-- `fetch_historical_snapshot` (backtester.py lines 573-589): per ticker,
fetch the full history, skip when empty, truncate to `as_of_date`, keep only
tickers with at least 200 remaining bars. -/
def fetch_historical_snapshot (provider : Provider) (stocks : List String)
    (as_of_date : ℕ) : List (String × List Bar) :=
  stocks.foldr
    (fun ticker acc =>
      let df := provider ticker
      if df = [] then acc
      else
        let fdf := filterLe as_of_date df
        if 200 ≤ fdf.length then (ticker, fdf) :: acc else acc)
    []

/-- `calculate_return` (backtester.py lines 653-657): N-day percentage return
of the `Close` column, 0.0 when shorter than `days`. -/
def calculate_return (df : List Bar) (days : ℕ) : ℚ :=
  calculate_stock_return (df.map Bar.close) days

/-- The benchmark returns computed by `screen_stocks_historical` (backtester.py
lines 617-625): `(0,0)` when the raw benchmark fetch is empty, else the 60-day
and 120-day returns of the history truncated to `as_of_date`. -/
def benchmark_returns_historical (provider : Provider) (as_of_date : ℕ) : ℚ × ℚ :=
  let benchmark_data := provider "^OMX"
  if benchmark_data = [] then (0, 0)
  else
    let b := filterLe as_of_date benchmark_data
    (calculate_return b 60, calculate_return b 120)

/-- Descending insertion by score (model of `sort_values('score', ascending=False)`,
backtester.py line 648). -/
def insertByScore (e : String × ScoreMetrics) :
    List (String × ScoreMetrics) → List (String × ScoreMetrics)
  | [] => [e]
  | x :: t => if e.2.score ≥ x.2.score then e :: x :: t else x :: insertByScore e t

/-- Sort a screening result by score, descending. -/
def sortByScoreDesc (l : List (String × ScoreMetrics)) : List (String × ScoreMetrics) :=
  l.foldr insertByScore []

/-- `screen_stocks_historical` (backtester.py lines 615-650): benchmark
returns as of the date, then per snapshot ticker add the MA columns, score
with fundamentals on and indicator confirmation off, keep positive scores,
filter to `distance_ma200 > 0`, and sort by score descending.  The
fundamentals provider is the `fetch_fundamentals` collaborator. -/
def screen_stocks_historical (provider : Provider) (fundProvider : String → Fundamentals)
    (stocks : List String) (as_of_date : ℕ) : List (String × ScoreMetrics) :=
  let benchmark_returns := benchmark_returns_historical provider as_of_date
  let snapshot := fetch_historical_snapshot provider stocks as_of_date
  let results := snapshot.foldr
    (fun e acc =>
      let df := calculate_ma50_ma200 (e.2.map Bar.close) (e.2.map Bar.high)
      let metrics := calculate_stock_score df benchmark_returns true (fundProvider e.1) false
      if metrics.score > 0 then (e.1, metrics) :: acc else acc)
    []
  sortByScoreDesc (results.filter fun e => e.2.distance_ma200 > 0)

/-- `df['value'].pct_change()` dropping the leading NaN (backtester.py line 700). -/
def pct_change (values : List ℚ) : List ℚ :=
  List.zipWith (fun b a => (b - a) / a) (values.drop 1) values

/-- Sample variance with `ddof = 1`, the square of pandas `Series.std()`
(0 stands in for the NaN pandas yields on fewer than two values; the
backtester never consumes it there). -/
def sampleVariance (xs : List ℚ) : ℚ :=
  if xs.length < 2 then 0
  else ((xs.map fun x => (x - xs.sum / xs.length) ^ 2).sum) / ((xs.length : ℚ) - 1)

/-- The annualized volatility of `calculate_performance_metrics` (backtester.py
lines 699-701, 717): `returns.std() * np.sqrt(12)`, reported `* 100`.  The
factor is `sqrt 12` unconditionally — the function receives no frequency. -/
noncomputable def metricsVolatility (values : List ℚ) : ℝ :=
  Real.sqrt (sampleVariance (pct_change values)) * Real.sqrt 12 * 100

/-- The volatility a backtest run reports for its equity curve:
`backtest_strategy` (backtester.py lines 527-534) passes the curve to
`calculate_performance_metrics` without the rebalance frequency, so the result
does not depend on `frequency`. -/
noncomputable def volatilityForRun (frequency : Frequency) (values : List ℚ) : ℝ :=
  metricsVolatility values

/-- A price series for exercising `calculate_stock_score`: 200 flat bars at
100, a three-bar dip to 90, and a recovery to 99.9 — the final price is just
above MA200 while the dip crossed below it within the last 7 bars. -/
def c3closes : List ℚ := List.replicate 200 100 ++ [90, 90, 90, 999 / 10, 999 / 10]

/-- The matching `High` column: one early spike to 5000 (the 52-week high),
otherwise equal to the closes. -/
def c3highs : List ℚ := 5000 :: (List.replicate 199 100 ++ [90, 90, 90, 999 / 10, 999 / 10])

/-- The DataFrame the screener would build from that series. -/
def c3df : ScoreDF := calculate_ma50_ma200 c3closes c3highs

/-- An empty fundamentals record (every yfinance field missing). -/
def fundNone : Fundamentals := ⟨none, none, none, none, false⟩

/-! ## Theorems -/

/-- Claim C2 counterexample: buying for 25,000 at price 250 with cost rate
0.0025 out of 100,000 cash leaves cash 74,937.50; the claim's asserted value
74,375.00 is wrong (its own formula 100,000 − 100×250×1.0025 = 74,937.50). -/
theorem C2_buy_cash_counterexample :
    ((Portfolio.init 100000).buy "T" 25000 250 0.0025).2.cash ≠ 74375 ∧
    ((Portfolio.init 100000).buy "T" 25000 250 0.0025).2.cash = 74937.5 := by
  norm_num [Portfolio.buy, Portfolio.init, pyIntTrunc, lookupA, updateA]

/-- Claim C2 (amended): the buy succeeds, the holding is 100 shares at average
cost 250, and cash is exactly 100,000 − 100×250×1.0025 = 74,937.50. -/
theorem C2_buy_scenario :
    ((Portfolio.init 100000).buy "T" 25000 250 0.0025).1 = true ∧
    ((Portfolio.init 100000).buy "T" 25000 250 0.0025).2.holdings = [("T", ⟨100, 250⟩)] ∧
    ((Portfolio.init 100000).buy "T" 25000 250 0.0025).2.cash = 100000 - 100 * 250 * 1.0025 := by
  norm_num [Portfolio.buy, Portfolio.init, pyIntTrunc, lookupA, updateA]

/-- Claim C5: for the 2026-or-later parameters, `pay_isk_tax` charges exactly
`max(0, value − 300000) × 0.01065`, debits exactly that amount from cash,
charges nothing (cash untouched) when the value is at or below the threshold,
and a value of 400,000 is taxed exactly 1,065. -/
theorem C5_isk_tax (p : Portfolio) (v : ℚ) (year : ℕ) (hy : 2026 ≤ year) :
    (p.pay_isk_tax v year).1 = max 0 (v - 300000) * 0.01065 ∧
    (p.pay_isk_tax v year).2.cash = p.cash - (p.pay_isk_tax v year).1 ∧
    (v ≤ 300000 → (p.pay_isk_tax v year).1 = 0 ∧ (p.pay_isk_tax v year).2.cash = p.cash) ∧
    (v = 400000 → (p.pay_isk_tax v year).1 = 1065) := by
  have hy' : year ≥ 2026 := hy
  by_cases hv : v ≤ (300000 : ℚ)
  · have hres : p.pay_isk_tax v year = (0, p) := by
      unfold Portfolio.pay_isk_tax
      simp only [if_pos hy', if_pos hv]
    rw [hres]
    refine ⟨?_, ?_, fun _ => ⟨rfl, rfl⟩, fun h400 => ?_⟩
    · show (0 : ℚ) = max 0 (v - 300000) * 0.01065
      rw [max_eq_left (by linarith)]; ring
    · show p.cash = p.cash - 0
      ring
    · rw [h400] at hv; norm_num at hv
  · have hres : p.pay_isk_tax v year
        = ((v - 300000) * 0.01065,
           { p with cash := p.cash - (v - 300000) * 0.01065,
                    total_isk_tax := p.total_isk_tax + (v - 300000) * 0.01065 }) := by
      unfold Portfolio.pay_isk_tax
      simp only [if_pos hy', if_neg hv]
    rw [hres]
    refine ⟨?_, rfl, fun hle => absurd hle hv, fun h400 => ?_⟩
    · show (v - 300000) * 0.01065 = max 0 (v - 300000) * 0.01065
      rw [max_eq_right (by linarith [not_le.mp hv])]
    · rw [h400]; norm_num

/-- Claim C5 witness: value 400,000 in year 2026 is taxed exactly 1,065. -/
theorem C5_isk_tax_witness :
    ((Portfolio.init 100000).pay_isk_tax 400000 2026).1 = 1065 :=
  (C5_isk_tax (Portfolio.init 100000) 400000 2026 (by norm_num)).2.2.2 rfl

/-- Claim C8: invalid trades are rejected atomically — `buy` returns `False`
with the portfolio unchanged whenever the fee-inclusive amount exceeds cash or
`floor(amount/price)` is non-positive, and `sell` returns `False` with the
portfolio unchanged whenever the ticker is not held.  (`price ≠ 0` rules out
the `ZeroDivisionError` path of Python's `amount / price`.) -/
theorem C8_reject_invalid_trades (p : Portfolio) (t : String) (amount price tc : ℚ)
    (hprice : 0 < price) :
    ((amount * (1 + tc) > p.cash ∨ ⌊amount / price⌋ ≤ 0) → p.buy t amount price tc = (false, p)) ∧
    (∀ q : ℚ, lookupA p.holdings t = none → p.sell t q tc = (false, p)) := by
  constructor
  · intro hrej
    unfold Portfolio.buy
    rcases hrej with hcash | hfloor
    · rw [if_pos hcash]
    · by_cases hcash : amount * (1 + tc) > p.cash
      · rw [if_pos hcash]
      · rw [if_neg hcash]
        have htr : pyIntTrunc (amount / price) ≤ 0 := by
          unfold pyIntTrunc
          by_cases hneg : amount / price < 0
          · rw [if_pos hneg]
            have : (0 : ℤ) ≤ ⌊-(amount / price)⌋ :=
              Int.floor_nonneg.mpr (by linarith)
            omega
          · rw [if_neg hneg]; exact hfloor
        rw [if_pos htr]
  · intro q hmiss
    unfold Portfolio.sell
    rw [hmiss]

/-- Claim C8 witness: a 1,000 buy against 100 cash is rejected unchanged, and
a sell of an unheld ticker is rejected unchanged. -/
theorem C8_reject_invalid_trades_witness :
    (Portfolio.init 100).buy "T" 1000 10 0 = (false, Portfolio.init 100) ∧
    (Portfolio.init 100).sell "T" 5 0 = (false, Portfolio.init 100) :=
  ⟨(C8_reject_invalid_trades (Portfolio.init 100) "T" 1000 10 0 (by norm_num)).1
      (Or.inl (by norm_num [Portfolio.init])),
   (C8_reject_invalid_trades (Portfolio.init 100) "T" 1000 10 0 (by norm_num)).2 5 rfl⟩

/-- Every month of a valid date has at least one day. -/
theorem daysInMonth_pos (y m : ℕ) (h1 : 1 ≤ m) (h2 : m ≤ 12) : 0 < daysInMonth y m := by
  interval_cases m <;> by_cases h : isLeap y <;> simp [daysInMonth, h]

/-- The cumulative month lengths of a whole year sum to its day count. -/
theorem daysBefore_12_add (y : ℕ) :
    daysBefore y 12 + daysInMonth y 12 = daysInYear y := by
  by_cases h : isLeap y <;> simp [daysBefore, daysInMonth, daysInYear, h]

/-- The calendar successor of a valid date is valid. -/
theorem nextDay_valid (dt : Date) (hv : validDate dt) : validDate (nextDay dt) := by
  obtain ⟨hm1, hm2, hd1, hd2⟩ := hv
  unfold nextDay
  by_cases hlt : dt.d < daysInMonth dt.y dt.m
  · rw [if_pos hlt]
    refine ⟨?_, ?_, ?_, ?_⟩ <;> dsimp only
    · exact hm1
    · exact hm2
    · omega
    · exact hlt
  · rw [if_neg hlt]
    by_cases hm : dt.m < 12
    · rw [if_pos hm]
      refine ⟨?_, ?_, ?_, ?_⟩ <;> dsimp only
      · omega
      · omega
      · exact le_refl 1
      · exact daysInMonth_pos dt.y (dt.m + 1) (by omega) (by omega)
    · rw [if_neg hm]
      refine ⟨?_, ?_, ?_, ?_⟩ <;> dsimp only
      · exact le_refl 1
      · omega
      · exact le_refl 1
      · simp [daysInMonth]

/-- The calendar successor advances the linear day number by exactly one. -/
theorem toNum_nextDay (dt : Date) (hv : validDate dt) : toNum (nextDay dt) = toNum dt + 1 := by
  obtain ⟨hm1, hm2, hd1, hd2⟩ := hv
  have htn : toNum dt = yearDaysBefore dt.y + daysBefore dt.y dt.m + dt.d := rfl
  unfold nextDay
  by_cases hlt : dt.d < daysInMonth dt.y dt.m
  · rw [if_pos hlt]
    have hL : toNum ⟨dt.y, dt.m, dt.d + 1⟩
        = yearDaysBefore dt.y + daysBefore dt.y dt.m + (dt.d + 1) := rfl
    rw [hL, htn]
    omega
  · rw [if_neg hlt]
    have hdim : dt.d = daysInMonth dt.y dt.m := le_antisymm hd2 (le_of_not_lt hlt)
    by_cases hm : dt.m < 12
    · rw [if_pos hm]
      have hL : toNum ⟨dt.y, dt.m + 1, 1⟩
          = yearDaysBefore dt.y + (daysBefore dt.y dt.m + daysInMonth dt.y dt.m) + 1 := rfl
      rw [hL, htn]
      omega
    · rw [if_neg hm]
      have hm12 : dt.m = 12 := by omega
      have hL : toNum ⟨dt.y + 1, 1, 1⟩
          = (yearDaysBefore dt.y + daysInYear dt.y) + daysBefore (dt.y + 1) 1 + 1 := rfl
      have h1' : daysBefore (dt.y + 1) 1 = 0 := by simp [daysBefore, daysInMonth]
      have h13 : daysBefore dt.y 12 + daysInMonth dt.y 12 = daysInYear dt.y :=
        daysBefore_12_add dt.y
      rw [hL, htn, h1', hm12]
      rw [hm12] at hdim
      omega

/-- `addDays` preserves validity. -/
theorem addDays_valid (n : ℕ) (dt : Date) (hv : validDate dt) : validDate (addDays n dt) := by
  induction n with
  | zero => exact hv
  | succ k ih => exact nextDay_valid _ ih

/-- `addDays n` advances the linear day number by exactly `n`. -/
theorem toNum_addDays (n : ℕ) (dt : Date) (hv : validDate dt) :
    toNum (addDays n dt) = toNum dt + n := by
  induction n with
  | zero => rfl
  | succ k ih =>
      show toNum (nextDay (addDays k dt)) = _
      rw [toNum_nextDay _ (addDays_valid k dt hv), ih]
      omega

/-- A successful `generate_rebalance_dates` run yields either the empty list
or a list headed by the start date. -/
theorem generate_rebalance_dates_head (fuel : ℕ) (cur endD : Date) (fr : Frequency)
    (l : List Date) (h : generate_rebalance_dates fuel cur endD fr = some l) :
    l = [] ∨ ∃ t, l = cur :: t := by
  match fuel, fr with
  | 0, _ => rw [generate_rebalance_dates] at h; cases h
  | fuel + 1, .monthly =>
      rw [generate_rebalance_dates] at h
      by_cases hle : dateLe cur endD
      · rw [if_pos hle] at h
        cases hnxt : monthlyNext cur with
        | none => rw [hnxt] at h; cases h
        | some nxt =>
            rw [hnxt] at h
            obtain ⟨t, _, ht⟩ := Option.map_eq_some'.mp h
            exact Or.inr ⟨t, ht.symm⟩
      · rw [if_neg hle] at h
        exact Or.inl (Option.some.inj h).symm
  | fuel + 1, .weekly =>
      rw [generate_rebalance_dates] at h
      by_cases hle : dateLe cur endD
      · rw [if_pos hle] at h
        obtain ⟨t, _, ht⟩ := Option.map_eq_some'.mp h
        exact Or.inr ⟨t, ht.symm⟩
      · rw [if_neg hle] at h
        exact Or.inl (Option.some.inj h).symm

/-- Monthly stepping keeps the day-of-month of the start date on every
generated date. -/
theorem generate_rebalance_dates_monthly_day (fuel : ℕ) (cur endD : Date) (l : List Date)
    (h : generate_rebalance_dates fuel cur endD .monthly = some l) :
    ∀ x ∈ l, x.d = cur.d := by
  induction fuel generalizing cur l with
  | zero => rw [generate_rebalance_dates] at h; cases h
  | succ fuel ih =>
      rw [generate_rebalance_dates] at h
      by_cases hle : dateLe cur endD
      · rw [if_pos hle] at h
        cases hnxt : monthlyNext cur with
        | none => rw [hnxt] at h; cases h
        | some nxt =>
            rw [hnxt] at h
            obtain ⟨t, ht, hl⟩ := Option.map_eq_some'.mp h
            intro x hx
            rw [← hl] at hx
            rcases List.mem_cons.mp hx with hx | hx
            · rw [hx]
            · have hnd : nxt.d = cur.d := by
                unfold monthlyNext at hnxt
                by_cases hok : cur.d ≤ daysInMonth (if cur.m = 12 then cur.y + 1 else cur.y)
                    (if cur.m = 12 then 1 else cur.m + 1)
                · rw [if_pos hok] at hnxt
                  cases Option.some.inj hnxt; rfl
                · rw [if_neg hok] at hnxt; cases hnxt
              rw [ih nxt t ht x hx, hnd]
      · rw [if_neg hle] at h
        intro x hx
        rw [← Option.some.inj h] at hx
        cases hx

/-- Weekly stepping advances the linear day number by exactly 7 between
consecutive generated dates. -/
theorem generate_rebalance_dates_weekly_chain (fuel : ℕ) (cur endD : Date) (l : List Date)
    (hv : validDate cur) (h : generate_rebalance_dates fuel cur endD .weekly = some l) :
    l.Chain' (fun a b => toNum b = toNum a + 7) := by
  induction fuel generalizing cur l with
  | zero => rw [generate_rebalance_dates] at h; cases h
  | succ fuel ih =>
      rw [generate_rebalance_dates] at h
      by_cases hle : dateLe cur endD
      · rw [if_pos hle] at h
        obtain ⟨t, ht, hl⟩ := Option.map_eq_some'.mp h
        rw [← hl]
        have htc : t.Chain' (fun a b => toNum b = toNum a + 7) :=
          ih (addDays 7 cur) t (addDays_valid 7 cur hv) ht
        refine List.chain'_cons'.mpr ⟨?_, htc⟩
        intro b hb
        rcases generate_rebalance_dates_head fuel (addDays 7 cur) endD .weekly t ht with
          hnil | ⟨t', ht'⟩
        · rw [hnil] at hb; cases hb
        · rw [ht'] at hb
          cases Option.some.inj hb
          exact toNum_addDays 7 cur hv
      · rw [if_neg hle] at h
        rw [← Option.some.inj h]
        exact List.chain'_nil

/-- `calculate_return` of an empty frame is 0 for any positive horizon. -/
theorem calculate_return_nil (days : ℕ) (hd : 0 < days) : calculate_return [] days = 0 := by
  simp [calculate_return, calculate_stock_return, hd]

/-- Two providers that agree on all bars dated `≤ D` yield the same benchmark
returns as of `D`. -/
theorem benchmark_returns_congr (p1 p2 : Provider) (D : ℕ)
    (h : filterLe D (p1 "^OMX") = filterLe D (p2 "^OMX")) :
    benchmark_returns_historical p1 D = benchmark_returns_historical p2 D := by
  unfold benchmark_returns_historical
  by_cases h1 : p1 "^OMX" = []
  · by_cases h2 : p2 "^OMX" = []
    · rw [if_pos h1, if_pos h2]
    · rw [if_pos h1, if_neg h2]
      have hf : filterLe D (p2 "^OMX") = [] := by
        rw [← h, h1]; rfl
      rw [hf]
      dsimp only
      rw [calculate_return_nil 60 (by norm_num), calculate_return_nil 120 (by norm_num)]
  · by_cases h2 : p2 "^OMX" = []
    · rw [if_neg h1, if_pos h2]
      have hf : filterLe D (p1 "^OMX") = [] := by
        rw [h, h2]; rfl
      rw [hf]
      dsimp only
      rw [calculate_return_nil 60 (by norm_num), calculate_return_nil 120 (by norm_num)]
    · rw [if_neg h1, if_neg h2, h]

/-- Two providers that agree on all bars dated `≤ D` yield the same historical
snapshot as of `D`. -/
theorem fetch_historical_snapshot_congr (p1 p2 : Provider) (stocks : List String) (D : ℕ)
    (h : ∀ t, filterLe D (p1 t) = filterLe D (p2 t)) :
    fetch_historical_snapshot p1 stocks D = fetch_historical_snapshot p2 stocks D := by
  unfold fetch_historical_snapshot
  induction stocks with
  | nil => rfl
  | cons t rest ih =>
      rw [List.foldr_cons, List.foldr_cons, ih]
      by_cases h1 : p1 t = []
      · by_cases h2 : p2 t = []
        · rw [if_pos h1, if_pos h2]
        · rw [if_pos h1, if_neg h2]
          have hf : filterLe D (p2 t) = [] := by rw [← h t, h1]; rfl
          rw [hf]
          norm_num
      · by_cases h2 : p2 t = []
        · rw [if_neg h1, if_pos h2]
          have hf : filterLe D (p1 t) = [] := by rw [h t, h2]; rfl
          rw [hf]
          norm_num
        · rw [if_neg h1, if_neg h2, h t]

/-- Claim C1: no lookahead — two provider histories that agree on all price
bars dated `≤ D` (and may differ arbitrarily after `D`) produce identical
screening passes as of `D`: same snapshot, same benchmark returns, and the
same composite score for every ticker, hence an identical ranked result. -/
theorem C1_no_lookahead (p1 p2 : Provider) (fundProvider : String → Fundamentals)
    (stocks : List String) (D : ℕ)
    (h : ∀ t, filterLe D (p1 t) = filterLe D (p2 t)) :
    screen_stocks_historical p1 fundProvider stocks D
      = screen_stocks_historical p2 fundProvider stocks D := by
  unfold screen_stocks_historical
  rw [benchmark_returns_congr p1 p2 D (h "^OMX"),
      fetch_historical_snapshot_congr p1 p2 stocks D h]

/-- Claim C1 witness: an empty provider and one whose only bar is dated after
the screening date agree on everything `≤ 3`, so the screening passes agree. -/
theorem C1_no_lookahead_witness :
    screen_stocks_historical (fun _ => []) (fun _ => ⟨none, none, none, none, false⟩) ["A"] 3
      = screen_stocks_historical (fun _ => [⟨5, 1, 1⟩])
          (fun _ => ⟨none, none, none, none, false⟩) ["A"] 3 :=
  C1_no_lookahead (fun _ => []) (fun _ => [⟨5, 1, 1⟩])
    (fun _ => ⟨none, none, none, none, false⟩) ["A"] 3
    (fun t => by norm_num [filterLe, List.filter])

/-- Claim C7 counterexample: on the equity curve [100, 200, 100], whose
volatility is nonzero, a weekly-frequency run reports exactly the same
annualized volatility as a monthly-frequency run — the annualization factor
does not differ by frequency. -/
theorem C7_volatility_counterexample :
    volatilityForRun .weekly [100, 200, 100] = volatilityForRun .monthly [100, 200, 100] ∧
    volatilityForRun .weekly [100, 200, 100] ≠ 0 := by
  refine ⟨rfl, ?_⟩
  unfold volatilityForRun metricsVolatility
  have h1 : sampleVariance (pct_change [100, 200, 100]) = 9 / 8 := by
    norm_num [sampleVariance, pct_change]
  rw [h1]
  have h2 : (0 : ℝ) < Real.sqrt (((9 : ℚ) / 8 : ℚ) : ℝ) * Real.sqrt 12 * 100 := by
    have hq : (0 : ℝ) < (((9 : ℚ) / 8 : ℚ) : ℝ) := by norm_num
    positivity
  exact ne_of_gt h2

/-- Claim C7 (amended): the reported volatility is the sample standard
deviation of the period-over-period returns annualized by `sqrt 12`
unconditionally — `calculate_performance_metrics` receives no frequency, so a
weekly-frequency run is annualized with the same factor as a monthly one. -/
theorem C7_volatility_frequency_independent (freq1 freq2 : Frequency) (curve : List ℚ) :
    volatilityForRun freq1 curve = volatilityForRun freq2 curve ∧
    volatilityForRun freq1 curve
      = Real.sqrt ((sampleVariance (pct_change curve) : ℚ) : ℝ) * Real.sqrt 12 * 100 :=
  ⟨rfl, rfl⟩

/-- Pointwise value of the rolling mean. -/
theorem calculate_ma_getElem (prices : List ℚ) (window i : ℕ) (h : i < prices.length) :
    (calculate_ma prices window)[i]? =
      some (if window ≤ i + 1 then
              some (((prices.drop (i + 1 - window)).take window).sum / window)
            else none) := by
  rw [calculate_ma, List.getElem?_map, List.getElem?_range h, Option.map_some']

/-- The rolling mean has one entry per input bar. -/
theorem calculate_ma_length (prices : List ℚ) (window : ℕ) :
    (calculate_ma prices window).length = prices.length := by
  simp [calculate_ma]

/-- Claim C9 (amended): at any bar whose rolling average loss is zero, the RSI
is 100 when the rolling average gain is positive, and NaN (`none`) when the
average gain is zero as well (pandas `0/0`); no division error is raised in
either case. -/
theorem C9_rsi_zero_loss (prices : List ℚ) (period i : ℕ) (hi : i < prices.length) (g : ℚ)
    (hg : ((rsi_avg_gain prices period)[i]?).join = some g)
    (hl : ((rsi_avg_loss prices period)[i]?).join = some 0) :
    (calculate_rsi prices period)[i]? = some (if g = 0 then none else some 100) := by
  rw [calculate_rsi, List.getElem?_map, List.getElem?_range hi, Option.map_some']
  rw [hg, hl]
  norm_num

/-- Claim C9 witness: with fourteen flat bars then one up-tick the average
loss is 0 and the average gain positive, and the RSI of the final bar is
exactly 100. -/
theorem C9_rsi_zero_loss_witness :
    (calculate_rsi (List.replicate 14 100 ++ [101]) 14)[14]? = some (some 100) := by
  have h := C9_rsi_zero_loss (List.replicate 14 100 ++ [101]) 14 14 (by norm_num)
    (1 / 14)
    (by norm_num [rsi_avg_gain, rsi_gain, rsiDeltas, calculate_ma, List.replicate,
          List.range_succ])
    (by norm_num [rsi_avg_loss, rsi_loss, rsiDeltas, calculate_ma, List.replicate,
          List.range_succ])
  simpa using h

/-- Claim C9 counterexample: on a flat 15-bar series the average loss over the
RSI window is zero, yet the RSI of the final bar is NaN (pandas `0/0`), not
100 — the division by zero is not handled explicitly. -/
theorem C9_rsi_counterexample :
    ((rsi_avg_loss (List.replicate 15 100) 14)[14]?).join = some 0 ∧
    (calculate_rsi (List.replicate 15 100) 14)[14]? = some none ∧
    (calculate_rsi (List.replicate 15 100) 14)[14]? ≠ some (some 100) := by
  have h2 : (calculate_rsi (List.replicate 15 100) 14)[14]? = some none := by
    norm_num [calculate_rsi, rsi_avg_gain, rsi_avg_loss, rsi_gain, rsi_loss, rsiDeltas,
      calculate_ma, List.replicate, List.range_succ]
  refine ⟨?_, h2, by rw [h2]; simp⟩
  norm_num [rsi_avg_loss, rsi_loss, rsiDeltas, calculate_ma, List.replicate, List.range_succ]

/-- Claim C6 counterexample: from start 2020-01-15 the monthly stepping yields
2020-02-15 and 2020-03-15 — not first-of-month dates — and from the valid
start 2020-01-31 monthly generation raises (`date.replace` ValueError, day 31
in February), so it does not succeed for every valid start date. -/
theorem C6_rebalance_dates_counterexample :
    generate_rebalance_dates 4 ⟨2020, 1, 15⟩ ⟨2020, 3, 20⟩ .monthly
      = some [⟨2020, 1, 15⟩, ⟨2020, 2, 15⟩, ⟨2020, 3, 15⟩] ∧
    (⟨2020, 2, 15⟩ : Date).d ≠ 1 ∧
    validDate ⟨2020, 1, 31⟩ ∧
    generate_rebalance_dates 100 ⟨2020, 1, 31⟩ ⟨2020, 12, 31⟩ .monthly = none := by
  refine ⟨by decide, by decide, by decide, by decide⟩

/-- Claim C6 (amended): monthly stepping keeps the start date's day-of-month
on every generated date (so dates are first-of-month exactly when the start
date is), and weekly stepping produces consecutive dates exactly 7 days
apart; monthly generation can fail (ValueError) when the start's day-of-month
does not exist in a later month. -/
theorem C6_rebalance_dates (fuel : ℕ) (start endD : Date) (l : List Date)
    (hv : validDate start) :
    (generate_rebalance_dates fuel start endD .monthly = some l → ∀ x ∈ l, x.d = start.d) ∧
    (start.d = 1 →
      generate_rebalance_dates fuel start endD .monthly = some l → ∀ x ∈ l, x.d = 1) ∧
    (generate_rebalance_dates fuel start endD .weekly = some l →
      l.Chain' (fun a b => toNum b = toNum a + 7)) := by
  refine ⟨fun h => generate_rebalance_dates_monthly_day fuel start endD l h,
    fun h1 h x hx => ?_,
    fun h => generate_rebalance_dates_weekly_chain fuel start endD l hv h⟩
  rw [generate_rebalance_dates_monthly_day fuel start endD l h x hx, h1]

/-- Claim C6 witness: the weekly dates generated from 2024-02-26 (crossing the
2024 leap day) to 2024-03-15 are consecutive and exactly 7 days apart. -/
theorem C6_rebalance_dates_witness :
    ([⟨2024, 2, 26⟩, ⟨2024, 3, 4⟩, ⟨2024, 3, 11⟩] : List Date).Chain'
      (fun a b => toNum b = toNum a + 7) :=
  (C6_rebalance_dates 10 ⟨2024, 2, 26⟩ ⟨2024, 3, 15⟩
    [⟨2024, 2, 26⟩, ⟨2024, 3, 4⟩, ⟨2024, 3, 11⟩] (by decide)).2.2 (by decide)

/-- Claim C4: after `get_drawdown_adjustment` the peak value never decreases,
the returned drawdown percentage is nonnegative, the size multiplier is the
fixed band value of the drawdown and never drops below 1/2, and a drawdown of
exactly 12 yields multiplier 0.70 with risk level "REDUCE". -/
theorem C4_drawdown_adjustment (p : Portfolio) (prices : List (String × ℚ))
    (hpeak : 0 < p.peak_value) :
    p.peak_value ≤ ((p.get_drawdown_adjustment prices).2).peak_value ∧
    0 ≤ (p.get_drawdown_adjustment prices).1.1 ∧
    (p.get_drawdown_adjustment prices).1.2.1
      = specBandMultiplier ((p.get_drawdown_adjustment prices).1.1) ∧
    (1 / 2 : ℚ) ≤ (p.get_drawdown_adjustment prices).1.2.1 ∧
    ((p.get_drawdown_adjustment prices).1.1 = 12 →
      (p.get_drawdown_adjustment prices).1.2.1 = 0.70 ∧
      (p.get_drawdown_adjustment prices).1.2.2 = "REDUCE") := by
  unfold Portfolio.get_drawdown_adjustment
  dsimp only
  set cv := p.get_total_value prices with hcv
  set pk := if cv > p.peak_value then cv else p.peak_value with hpk
  have hpkge : p.peak_value ≤ pk := by
    rw [hpk]
    by_cases hc : cv > p.peak_value
    · rw [if_pos hc]; exact le_of_lt hc
    · rw [if_neg hc]
  have hcvle : cv ≤ pk := by
    rw [hpk]
    by_cases hc : cv > p.peak_value
    · rw [if_pos hc]
    · rw [if_neg hc]; exact le_of_not_lt hc
  have hpk0 : (0 : ℚ) < pk := lt_of_lt_of_le hpeak hpkge
  set dd := (pk - cv) / pk * 100 with hdd
  have hdd0 : (0 : ℚ) ≤ dd := by
    rw [hdd]
    exact mul_nonneg (div_nonneg (by linarith) (le_of_lt hpk0)) (by norm_num)
  split_ifs with h1 h2 h3 h4
  · refine ⟨hpkge, hdd0, ?_, by norm_num, fun h12 => ?_⟩
    · show (1 : ℚ) = specBandMultiplier dd
      rw [specBandMultiplier, if_pos h1]
    · have h12' : dd = 12 := h12
      rw [h12'] at h1; norm_num at h1
  · refine ⟨hpkge, hdd0, ?_, by norm_num, fun h12 => ?_⟩
    · show (0.85 : ℚ) = specBandMultiplier dd
      rw [specBandMultiplier, if_neg h1, if_pos h2]
    · have h12' : dd = 12 := h12
      rw [h12'] at h2; norm_num at h2
  · exact ⟨hpkge, hdd0,
      by show (0.70 : ℚ) = specBandMultiplier dd
         rw [specBandMultiplier, if_neg h1, if_neg h2, if_pos h3],
      by norm_num, fun h12 => ⟨rfl, rfl⟩⟩
  · refine ⟨hpkge, hdd0, ?_, by norm_num, fun h12 => ?_⟩
    · show (0.60 : ℚ) = specBandMultiplier dd
      rw [specBandMultiplier, if_neg h1, if_neg h2, if_neg h3, if_pos h4]
    · have h12' : dd = 12 := h12
      rw [h12'] at h3; norm_num at h3
  · refine ⟨hpkge, hdd0, ?_, by norm_num, fun h12 => ?_⟩
    · show (0.50 : ℚ) = specBandMultiplier dd
      rw [specBandMultiplier, if_neg h1, if_neg h2, if_neg h3, if_neg h4]
    · have h12' : dd = 12 := h12
      rw [h12'] at h4; norm_num at h4

/-- Claim C4 witness: a portfolio with peak 100 and current value 88 has
drawdown exactly 12, multiplier 0.70 and risk level "REDUCE". -/
theorem C4_drawdown_adjustment_witness :
    ((⟨100, 88, [], 0, 0, 100⟩ : Portfolio).get_drawdown_adjustment []).1.2.1 = 0.70 ∧
    ((⟨100, 88, [], 0, 0, 100⟩ : Portfolio).get_drawdown_adjustment []).1.2.2 = "REDUCE" :=
  (C4_drawdown_adjustment (⟨100, 88, [], 0, 0, 100⟩ : Portfolio) [] (by norm_num)).2.2.2.2
    (by norm_num [Portfolio.get_drawdown_adjustment, Portfolio.get_total_value])

/-- Helper for C10: holdings whose ticker has no quote contribute 0, so
filtering them out of the sum changes nothing. -/
theorem sum_holdings_filter_missing (prices : List (String × ℚ)) (t : String)
    (hmiss : lookupA prices t = none) (l : List (String × Holding)) :
    (l.map fun e => (e.2.shares : ℚ) * ((lookupA prices e.1).getD 0)).sum
      = ((l.filter fun e => e.1 ≠ t).map
          fun e => (e.2.shares : ℚ) * ((lookupA prices e.1).getD 0)).sum := by
  induction l with
  | nil => rfl
  | cons e rest ih =>
      by_cases he : e.1 = t
      · have hdrop : (e :: rest).filter (fun e => e.1 ≠ t) = rest.filter fun e => e.1 ≠ t := by
          simp [List.filter, he]
        rw [hdrop, List.map_cons, List.sum_cons, ih, he, hmiss]
        simp
      · have hkeep : (e :: rest).filter (fun e => e.1 ≠ t)
            = e :: rest.filter fun e => e.1 ≠ t := by
          simp [List.filter, he]
        rw [hkeep, List.map_cons, List.sum_cons, List.map_cons, List.sum_cons, ih]

/-- Claim C10: `get_total_value` is cash plus `shares × price` over the held
tickers with a quote defaulting to 0, so a held ticker absent from the price
map contributes exactly 0 — removing all such holdings leaves the total
unchanged. -/
theorem C10_total_value_missing_price (p : Portfolio) (prices : List (String × ℚ))
    (t : String) (hmiss : lookupA prices t = none) :
    p.get_total_value prices
      = p.cash + (p.holdings.map fun e => (e.2.shares : ℚ) * ((lookupA prices e.1).getD 0)).sum ∧
    p.get_total_value prices
      = Portfolio.get_total_value
          { p with holdings := p.holdings.filter fun e => e.1 ≠ t } prices := by
  refine ⟨rfl, ?_⟩
  unfold Portfolio.get_total_value
  rw [sum_holdings_filter_missing prices t hmiss]

/-- The triple-MA points are between 0 and 15. -/
theorem triplePoints_bounds (a b : Option ℚ) (c : ℚ) :
    0 ≤ triplePoints a b c ∧ triplePoints a b c ≤ 15 := by
  unfold triplePoints
  rcases a with _ | m50
  · norm_num
  · rcases b with _ | m100 <;> dsimp only <;> split_ifs <;> norm_num

/-- The relative-strength points are between 0 and 15. -/
theorem rsPoints_bounds (rs : ℚ) : 0 ≤ rsPoints rs ∧ rsPoints rs ≤ 15 := by
  unfold rsPoints
  exact ⟨le_min (by norm_num) (le_max_left 0 _), min_le_left _ _⟩

/-- The revenue-growth block is between 0 and 8. -/
theorem revenueGrowthPoints_bounds (x : Option ℚ) :
    0 ≤ revenueGrowthPoints x ∧ revenueGrowthPoints x ≤ 8 := by
  unfold revenueGrowthPoints
  rcases x with _ | rg
  · norm_num
  · dsimp only
    split_ifs <;> norm_num

/-- The profit-margin block is between 0 and 6. -/
theorem profitMarginPoints_bounds (x : Option ℚ) :
    0 ≤ profitMarginPoints x ∧ profitMarginPoints x ≤ 6 := by
  unfold profitMarginPoints
  rcases x with _ | pm
  · norm_num
  · dsimp only
    split_ifs <;> norm_num

/-- The ROE block is between 0 and 6. -/
theorem roePoints_bounds (x : Option ℚ) : 0 ≤ roePoints x ∧ roePoints x ≤ 6 := by
  unfold roePoints
  rcases x with _ | r
  · norm_num
  · dsimp only
    split_ifs <;> norm_num

/-- The dividend block is between 0 and 3. -/
theorem dividendPoints_bounds (b : Bool) : 0 ≤ dividendPoints b ∧ dividendPoints b ≤ 3 := by
  unfold dividendPoints
  split_ifs <;> norm_num

/-- The debt block is between 0 and 2. -/
theorem debtPoints_bounds (x : Option ℚ) : 0 ≤ debtPoints x ∧ debtPoints x ≤ 2 := by
  unfold debtPoints
  rcases x with _ | de
  · norm_num
  · dsimp only
    split_ifs <;> norm_num

/-- The quality score is between 0 and 25. -/
theorem calculate_quality_score_bounds (f : Fundamentals) :
    0 ≤ calculate_quality_score f ∧ calculate_quality_score f ≤ 25 := by
  unfold calculate_quality_score
  obtain ⟨h1, h2⟩ := revenueGrowthPoints_bounds f.revenue_growth
  obtain ⟨h3, h4⟩ := profitMarginPoints_bounds f.profit_margin
  obtain ⟨h5, h6⟩ := roePoints_bounds f.roe
  obtain ⟨h7, h8⟩ := dividendPoints_bounds f.pays_dividend
  obtain ⟨h9, h10⟩ := debtPoints_bounds f.debt_to_equity
  constructor <;> linarith

/-- The 52-week-high points are between 0 and 15 for a positive price. -/
theorem highPoints_bounds (cp : ℚ) (highs : List ℚ) (hcp : 0 < cp) :
    0 ≤ highPoints cp highs ∧ highPoints cp highs ≤ 15 := by
  unfold highPoints
  rcases get_52_week_high highs with _ | h
  · norm_num
  · dsimp only
    split_ifs with hcond
    · refine ⟨le_min (by norm_num) ?_, min_le_left _ _⟩
      have hpos : 0 < h := hcond.2
      positivity
    · norm_num

/-- The RSI band points are between −5 and 10. -/
theorem rsiBandPoints_bounds (x : Option ℚ) :
    -5 ≤ rsiBandPoints x ∧ rsiBandPoints x ≤ 10 := by
  unfold rsiBandPoints
  rcases x with _ | r
  · norm_num
  · dsimp only
    split_ifs <;> norm_num

/-- The MACD band points are between −10 and 10. -/
theorem macdBandPoints_bounds (info : MacdInfo) :
    -10 ≤ macdBandPoints info ∧ macdBandPoints info ≤ 10 := by
  unfold macdBandPoints
  split_ifs <;> norm_num

/-- The indicator-confirmation points are between −15 and 20. -/
theorem indicatorConfirmationPoints_bounds (df : ScoreDF) :
    -15 ≤ indicatorConfirmationPoints df ∧ indicatorConfirmationPoints df ≤ 20 := by
  unfold indicatorConfirmationPoints
  obtain ⟨h1, h2⟩ := rsiBandPoints_bounds (((calculate_rsi df.closes 14).getLast?).join)
  obtain ⟨h3, h4⟩ := macdBandPoints_bounds
    (detect_macd_crossover (calculate_macd df.closes 12 26 9).1
      (calculate_macd df.closes 12 26 9).2.1 (calculate_macd df.closes 12 26 9).2.2 5)
  constructor <;> dsimp only <;> linarith

/-- Round-half-even never exceeds the ceiling. -/
theorem roundHalfEven_le_ceil (x : ℚ) : roundHalfEven x ≤ ⌈x⌉ := by
  unfold roundHalfEven
  split_ifs with h1 h2 h3
  · exact Int.floor_le_ceil x
  · have hx : (⌊x⌋ : ℚ) < x := by linarith
    have := Int.lt_ceil.mpr hx
    omega
  · exact Int.floor_le_ceil x
  · have hx : (⌊x⌋ : ℚ) < x := by linarith
    have := Int.lt_ceil.mpr hx
    omega

/-- Round-half-even never undershoots the floor. -/
theorem floor_le_roundHalfEven (x : ℚ) : ⌊x⌋ ≤ roundHalfEven x := by
  unfold roundHalfEven
  split_ifs <;> omega

/-- `round(x, 1)` preserves an upper bound of 150. -/
theorem pyRound1_le_150 (x : ℚ) (h : x ≤ 150) : pyRound1 x ≤ 150 := by
  unfold pyRound1
  have h1 : roundHalfEven (x * 10) ≤ ⌈x * 10⌉ := roundHalfEven_le_ceil _
  have h2 : ⌈x * 10⌉ ≤ 1500 := by
    rw [show (1500 : ℤ) = ⌈(1500 : ℚ)⌉ by norm_num]
    exact Int.ceil_le_ceil (by linarith)
  have h3 : (roundHalfEven (x * 10) : ℚ) ≤ 1500 := by exact_mod_cast le_trans h1 h2
  linarith

/-- `round(x, 1)` preserves a strict lower bound of −15 (non-strictly). -/
theorem pyRound1_ge_neg15 (x : ℚ) (h : -15 < x) : -15 ≤ pyRound1 x := by
  unfold pyRound1
  have h1 : (-150 : ℤ) ≤ ⌊x * 10⌋ := Int.le_floor.mpr (by push_cast; linarith)
  have h2 := floor_le_roundHalfEven (x * 10)
  have h3 : (-150 : ℚ) ≤ (roundHalfEven (x * 10) : ℚ) := by exact_mod_cast le_trans h1 h2
  linarith

/-- A defined rolling-mean entry over positive prices is positive. -/
theorem calculate_ma_join_pos (prices : List ℚ) (w i : ℕ) (v : ℚ)
    (hpos : ∀ x ∈ prices, 0 < x) (hw : 0 < w)
    (hv : ((calculate_ma prices w)[i]?).join = some v) : 0 < v := by
  by_cases hi : i < prices.length
  · rw [calculate_ma_getElem prices w i hi] at hv
    simp only [Option.join] at hv
    by_cases hcond : w ≤ i + 1
    · rw [if_pos hcond] at hv
      have hveq : ((prices.drop (i + 1 - w)).take w).sum / (w : ℚ) = v := Option.some.inj hv
      have hmem : ∀ x ∈ (prices.drop (i + 1 - w)).take w, (0 : ℚ) < x := fun x hx =>
        hpos x (List.mem_of_mem_drop (List.mem_of_mem_take hx))
      have hlen : ((prices.drop (i + 1 - w)).take w).length = w := by
        rw [List.length_take, List.length_drop]
        omega
      have hne : (prices.drop (i + 1 - w)).take w ≠ [] := by
        intro hnil
        rw [hnil] at hlen
        simp at hlen
        omega
      have hsum := List.sum_pos _ hmem hne
      rw [← hveq]
      exact div_pos hsum (by exact_mod_cast hw)
    · rw [if_neg hcond] at hv
      cases hv
  · have hnone : (calculate_ma prices w)[i]? = none := by
      apply List.getElem?_eq_none
      rw [calculate_ma_length]
      omega
    rw [hnone] at hv
    cases hv

/-- A `getLast?` hit is a member. -/
theorem mem_of_getLast?_eq (l : List ℚ) (a : ℚ) (h : l.getLast? = some a) : a ∈ l := by
  obtain ⟨hne, heq⟩ := List.mem_getLast?_eq_getLast (by rw [h]; exact rfl)
  exact heq ▸ List.getLast_mem hne

/-- Claim C3 (amended): on any price series of positive closes (any highs,
benchmark returns, fundamentals and flag settings), the composite score of
the screener pipeline lies in [−15, 150]: the upper bound 150 holds, but the
death-cross penalty (−20) together with the indicator-confirmation penalties
(RSI overbought −5, MACD bearish cross −10) can push the score below 0, down
to but never past −15. -/
theorem C3_score_bounds (closes highs : List ℚ) (benchmark_returns : ℚ × ℚ)
    (include_fundamentals : Bool) (fund : Fundamentals) (use_indicator_confirmation : Bool)
    (hpos : ∀ c ∈ closes, 0 < c) :
    -15 ≤ (calculate_stock_score (calculate_ma50_ma200 closes highs) benchmark_returns
            include_fundamentals fund use_indicator_confirmation).score ∧
    (calculate_stock_score (calculate_ma50_ma200 closes highs) benchmark_returns
            include_fundamentals fund use_indicator_confirmation).score ≤ 150 := by
  unfold calculate_stock_score calculate_ma50_ma200
  dsimp only
  cases hlast : closes.getLast? with
  | none => norm_num
  | some cp =>
      cases hma : ((calculate_ma closes 200).getLast?).join with
      | none => norm_num
      | some ma200v =>
          dsimp only
          by_cases hgate : cp > ma200v
          · rw [if_pos hgate]
            dsimp only
            have hcp : 0 < cp := hpos cp (mem_of_getLast?_eq closes cp hlast)
            have hma0 : 0 < ma200v := by
              rw [List.getLast?_eq_getElem?] at hma
              exact calculate_ma_join_pos closes 200 _ ma200v hpos (by norm_num) hma
            have hdistpos : 0 < (cp - ma200v) / ma200v * 100 :=
              mul_pos (div_pos (sub_pos.mpr hgate) hma0) (by norm_num)
            obtain ⟨ht1, ht2⟩ := triplePoints_bounds
              (((calculate_ma closes 50).getLast?).join)
              (((calculate_ma closes 100).getLast?).join) ma200v
            have hsl : (0 : ℚ) ≤
                (if calculate_ma200_slope
                    ⟨closes, highs, calculate_ma closes 50, calculate_ma closes 100,
                     calculate_ma closes 200⟩ 20 > 0 then (10 : ℚ) else 0) ∧
                (if calculate_ma200_slope
                    ⟨closes, highs, calculate_ma closes 50, calculate_ma closes 100,
                     calculate_ma closes 200⟩ 20 > 0 then (10 : ℚ) else 0) ≤ 10 := by
              split_ifs <;> norm_num
            have hdc : (-20 : ℚ) ≤
                (if (detect_crossover
                    ⟨closes, highs, calculate_ma closes 50, calculate_ma closes 100,
                     calculate_ma closes 200⟩ 7).crossed_below_ma200 then (-20 : ℚ) else 0) ∧
                (if (detect_crossover
                    ⟨closes, highs, calculate_ma closes 50, calculate_ma closes 100,
                     calculate_ma closes 200⟩ 7).crossed_below_ma200 then (-20 : ℚ) else 0) ≤ 0 := by
              split_ifs <;> norm_num
            obtain ⟨hr1, hr2⟩ := rsPoints_bounds
              (calculate_stock_return closes 60 - benchmark_returns.1)
            obtain ⟨hr3, hr4⟩ := rsPoints_bounds
              (calculate_stock_return closes 120 - benchmark_returns.2)
            have hdp : (0 : ℚ) < min 15 ((cp - ma200v) / ma200v * 100 * 1.5) ∧
                min 15 ((cp - ma200v) / ma200v * 100 * 1.5) ≤ 15 :=
              ⟨lt_min (by norm_num) (by positivity), min_le_left _ _⟩
            obtain ⟨hh1, hh2⟩ := highPoints_bounds cp highs hcp
            have hq : (0 : ℚ) ≤ (if include_fundamentals then calculate_quality_score fund else 0) ∧
                (if include_fundamentals then calculate_quality_score fund else 0) ≤ 25 := by
              split_ifs
              · exact calculate_quality_score_bounds fund
              · norm_num
            have hic : (-15 : ℚ) ≤
                (if use_indicator_confirmation then indicatorConfirmationPoints
                    ⟨closes, highs, calculate_ma closes 50, calculate_ma closes 100,
                     calculate_ma closes 200⟩ else 0) ∧
                (if use_indicator_confirmation then indicatorConfirmationPoints
                    ⟨closes, highs, calculate_ma closes 50, calculate_ma closes 100,
                     calculate_ma closes 200⟩ else 0) ≤ 20 := by
              split_ifs
              · exact indicatorConfirmationPoints_bounds _
              · norm_num
            constructor
            · apply pyRound1_ge_neg15
              linarith [hsl.1, hdc.1, hdp.1, hq.1, hic.1]
            · apply pyRound1_le_150
              linarith [hsl.2, hdc.2, hdp.2, hq.2, hic.2]
          · rw [if_neg hgate]
            norm_num

/-- Claim C3 (amended) witness: a one-bar series of positive closes has its
composite score inside [−15, 150]. -/
theorem C3_score_bounds_witness :
    -15 ≤ (calculate_stock_score (calculate_ma50_ma200 [100] [100]) (0, 0)
            false fundNone false).score ∧
    (calculate_stock_score (calculate_ma50_ma200 [100] [100]) (0, 0)
            false fundNone false).score ≤ 150 :=
  C3_score_bounds [100] [100] (0, 0) false fundNone false (by norm_num)

/-- An element of a replicate-prefixed list, inside the prefix. -/
theorem getElem?_replicate_append_left {α : Type} (c : α) (L : List α) (n j : ℕ)
    (h : j < n) : (List.replicate n c ++ L)[j]? = some c := by
  rw [List.getElem?_append_left (by simpa using h), List.getElem?_replicate, if_pos h]

/-- An element of a replicate-prefixed list, past the prefix. -/
theorem getElem?_replicate_append_right {α : Type} (c : α) (L : List α) (n j : ℕ)
    (h : n ≤ j) : (List.replicate n c ++ L)[j]? = L[j - n]? := by
  rw [List.getElem?_append_right (by simpa using h)]
  simp

/-- The EWMA recurrence is constant over a constant prefix. -/
theorem ewmFrom_const (a c : ℚ) (n : ℕ) (rest : List ℚ) :
    ewmFrom a c (List.replicate n c ++ rest) = List.replicate n c ++ ewmFrom a c rest := by
  induction n with
  | zero => simp
  | succ k ih =>
      rw [List.replicate_succ, List.cons_append]
      show (c + a * (c - c)) :: ewmFrom a (c + a * (c - c)) (List.replicate k c ++ rest) = _
      have hc : c + a * (c - c) = c := by ring
      rw [hc, ih, List.cons_append]

/-- Subtracting equal constant lists gives a zero list. -/
theorem zipWith_sub_replicate (n : ℕ) (c : ℚ) :
    List.zipWith (fun a b => a - b) (List.replicate n c) (List.replicate n c)
      = List.replicate n 0 := by
  induction n with
  | zero => rfl
  | succ k ih =>
      rw [List.replicate_succ, List.replicate_succ, List.zipWith_cons_cons, ih, sub_self]


/-- Folding `max` over a constant list. -/
theorem foldl_max_replicate (a c : ℚ) (n : ℕ) :
    List.foldl max a (List.replicate n c) = if n = 0 then a else max a c := by
  induction n generalizing a with
  | zero => simp
  | succ k ih =>
      rw [List.replicate_succ, List.foldl_cons, ih]
      by_cases hk : k = 0
      · simp [hk]
      · rw [if_neg hk, if_neg (Nat.succ_ne_zero k), max_assoc, max_self]

/-- Length of the C3 series. -/
theorem c3closes_length : c3closes.length = 205 := by norm_num [c3closes]

/-- Cons form of the C3 series. -/
theorem c3closes_cons :
    c3closes = 100 :: (List.replicate 199 100 ++ [90, 90, 90, 999 / 10, 999 / 10]) := by
  rw [c3closes, show (200 : ℕ) = 199 + 1 from rfl, List.replicate_succ, List.cons_append]

/-- MA200 of the C3 series is NaN before bar 199. -/
theorem c3ma200_none (j : ℕ) (hj : j < 199) : (calculate_ma c3closes 200)[j]? = some none := by
  rw [calculate_ma_getElem _ _ _ (by rw [c3closes_length]; omega)]
  rw [if_neg (by omega)]

/-- MA200 of the C3 series at bar 199. -/
theorem c3ma200_199 : (calculate_ma c3closes 200)[199]? = some (some 100) := by
  rw [calculate_ma_getElem _ _ _ (by norm_num [c3closes])]
  norm_num [c3closes, List.drop_append_eq_append_drop, List.drop_replicate,
    List.take_append_eq_append_take, List.take_replicate, List.sum_append, List.sum_replicate]

/-- MA200 of the C3 series at bar 200. -/
theorem c3ma200_200 : (calculate_ma c3closes 200)[200]? = some (some (1999 / 20)) := by
  rw [calculate_ma_getElem _ _ _ (by norm_num [c3closes])]
  norm_num [c3closes, List.drop_append_eq_append_drop, List.drop_replicate,
    List.take_append_eq_append_take, List.take_replicate, List.sum_append, List.sum_replicate]

/-- MA200 of the C3 series at bar 201. -/
theorem c3ma200_201 : (calculate_ma c3closes 200)[201]? = some (some (999 / 10)) := by
  rw [calculate_ma_getElem _ _ _ (by norm_num [c3closes])]
  norm_num [c3closes, List.drop_append_eq_append_drop, List.drop_replicate,
    List.take_append_eq_append_take, List.take_replicate, List.sum_append, List.sum_replicate]

/-- MA200 of the C3 series at bar 202. -/
theorem c3ma200_202 : (calculate_ma c3closes 200)[202]? = some (some (1997 / 20)) := by
  rw [calculate_ma_getElem _ _ _ (by norm_num [c3closes])]
  norm_num [c3closes, List.drop_append_eq_append_drop, List.drop_replicate,
    List.take_append_eq_append_take, List.take_replicate, List.sum_append, List.sum_replicate]

/-- MA200 of the C3 series at bar 203. -/
theorem c3ma200_203 : (calculate_ma c3closes 200)[203]? = some (some (199699 / 2000)) := by
  rw [calculate_ma_getElem _ _ _ (by norm_num [c3closes])]
  norm_num [c3closes, List.drop_append_eq_append_drop, List.drop_replicate,
    List.take_append_eq_append_take, List.take_replicate, List.sum_append, List.sum_replicate]

/-- MA200 of the C3 series at the last bar. -/
theorem c3ma200_204 : (calculate_ma c3closes 200)[204]? = some (some (99849 / 1000)) := by
  rw [calculate_ma_getElem _ _ _ (by norm_num [c3closes])]
  norm_num [c3closes, List.drop_append_eq_append_drop, List.drop_replicate,
    List.take_append_eq_append_take, List.take_replicate, List.sum_append, List.sum_replicate]

/-- MA50 of the C3 series at the last bar. -/
theorem c3ma50_204 : (calculate_ma c3closes 50)[204]? = some (some (24849 / 250)) := by
  rw [calculate_ma_getElem _ _ _ (by norm_num [c3closes])]
  norm_num [c3closes, List.drop_append_eq_append_drop, List.drop_replicate,
    List.take_append_eq_append_take, List.take_replicate, List.sum_append, List.sum_replicate]

/-- MA100 of the C3 series at the last bar. -/
theorem c3ma100_204 : (calculate_ma c3closes 100)[204]? = some (some (49849 / 500)) := by
  rw [calculate_ma_getElem _ _ _ (by norm_num [c3closes])]
  norm_num [c3closes, List.drop_append_eq_append_drop, List.drop_replicate,
    List.take_append_eq_append_take, List.take_replicate, List.sum_append, List.sum_replicate]

/-- The C3 closes inside the flat prefix. -/
theorem c3closes_at_lt (j : ℕ) (h : j < 200) : c3closes[j]? = some 100 := by
  rw [c3closes, getElem?_replicate_append_left _ _ _ _ h]

/-- The C3 closes on the dip and recovery bars. -/
theorem c3closes_200 : c3closes[200]? = some 90 := by
  rw [c3closes, getElem?_replicate_append_right _ _ _ _ (by norm_num)]
  norm_num

/-- The C3 close at bar 201. -/
theorem c3closes_201 : c3closes[201]? = some 90 := by
  rw [c3closes, getElem?_replicate_append_right _ _ _ _ (by norm_num)]
  norm_num

/-- The C3 close at bar 202. -/
theorem c3closes_202 : c3closes[202]? = some 90 := by
  rw [c3closes, getElem?_replicate_append_right _ _ _ _ (by norm_num)]
  norm_num

/-- The C3 close at bar 203. -/
theorem c3closes_203 : c3closes[203]? = some (999 / 10) := by
  rw [c3closes, getElem?_replicate_append_right _ _ _ _ (by norm_num)]
  norm_num

/-- The C3 close at the last bar. -/
theorem c3closes_204 : c3closes[204]? = some (999 / 10) := by
  rw [c3closes, getElem?_replicate_append_right _ _ _ _ (by norm_num)]
  norm_num

/-- The last C3 close via `getLast?`. -/
theorem c3closes_last : c3closes.getLast? = some (999 / 10) := by
  rw [List.getLast?_eq_getElem?, c3closes_length]
  exact c3closes_204

/-- The last MA200 value via `getLast?`. -/
theorem c3ma200_last : (calculate_ma c3closes 200).getLast? = some (some (99849 / 1000)) := by
  rw [List.getLast?_eq_getElem?, calculate_ma_length, c3closes_length]
  exact c3ma200_204

/-- The last MA50 value via `getLast?`. -/
theorem c3ma50_last : (calculate_ma c3closes 50).getLast? = some (some (24849 / 250)) := by
  rw [List.getLast?_eq_getElem?, calculate_ma_length, c3closes_length]
  exact c3ma50_204

/-- The last MA100 value via `getLast?`. -/
theorem c3ma100_last : (calculate_ma c3closes 100).getLast? = some (some (49849 / 500)) := by
  rw [List.getLast?_eq_getElem?, calculate_ma_length, c3closes_length]
  exact c3ma100_204

/-- Join of a some. -/
theorem option_join_some {α : Type} (a : Option α) : (some a).join = a := rfl

/-- A constant can be pushed through a matching replicate prefix. -/
theorem cons_replicate_append {α : Type} (c : α) (n : ℕ) (T : List α) :
    c :: (List.replicate n c ++ T) = List.replicate n c ++ (c :: T) := by
  induction n with
  | zero => rfl
  | succ k ih => simp only [List.replicate_succ, List.cons_append, ih]

/-- The MA200 slope of the C3 frame is 0: the window's first MA200 cell is
still NaN. -/
theorem c3slope : calculate_ma200_slope c3df 20 = 0 := by
  unfold calculate_ma200_slope c3df calculate_ma50_ma200
  dsimp only
  rw [c3closes_length, calculate_ma_length, c3closes_length]
  rw [if_neg (by norm_num)]
  split
  · rfl
  · rw [show (205 : ℕ) - 20 = 185 from rfl, c3ma200_none 185 (by norm_num), option_join_some]

/-- The crossover scan of the C3 frame: the dip crossed below MA200 at the
199→200 transition and back above at 202→203, both inside the 7-bar window. -/
theorem c3cross : detect_crossover c3df 7 = ⟨true, true, some 1⟩ := by
  unfold detect_crossover c3df calculate_ma50_ma200
  dsimp only
  rw [c3closes_length]
  rw [if_neg (by norm_num)]
  rw [show (205 : ℕ) - (7 + 1) = 197 from rfl, show (205 : ℕ) - 1 = 204 from rfl]
  have hall : ((List.range (7 + 1)).all fun i =>
      ((calculate_ma c3closes 200)[197 + i]?).join.isNone) = false := by
    norm_num [List.range_succ, c3ma200_none 197 (by norm_num), c3ma200_none 198 (by norm_num),
      c3ma200_199, c3ma200_200, c3ma200_201, c3ma200_202, c3ma200_203, c3ma200_204,
      option_join_some]
  rw [hall, if_neg (by simp), c3ma200_204, option_join_some]
  norm_num [List.range_succ, List.foldl_append, List.foldl_cons, List.foldl_nil,
    crossInfoNone, c3closes_at_lt 197 (by norm_num), c3closes_at_lt 198 (by norm_num),
    c3closes_at_lt 199 (by norm_num), c3closes_200, c3closes_201, c3closes_202,
    c3closes_203, c3closes_204, c3ma200_none 197 (by norm_num), c3ma200_none 198 (by norm_num),
    c3ma200_199, c3ma200_200, c3ma200_201, c3ma200_202, c3ma200_203, c3ma200_204,
    option_join_some]

/-- 60-bar return of the C3 series. -/
theorem c3ret60 : calculate_stock_return c3closes 60 = -1 / 10 := by
  unfold calculate_stock_return
  rw [c3closes_length, if_neg (by norm_num), c3closes_last,
    show (205 : ℕ) - 60 = 145 from rfl, c3closes_at_lt 145 (by norm_num)]
  norm_num

/-- 120-bar return of the C3 series. -/
theorem c3ret120 : calculate_stock_return c3closes 120 = -1 / 10 := by
  unfold calculate_stock_return
  rw [c3closes_length, if_neg (by norm_num), c3closes_last,
    show (205 : ℕ) - 120 = 85 from rfl, c3closes_at_lt 85 (by norm_num)]
  norm_num

/-- The daily deltas of the C3 series. -/
theorem c3deltas : rsiDeltas c3closes = List.replicate 200 0 ++ [-10, 0, 0, 99 / 10, 0] := by
  unfold rsiDeltas
  rw [c3closes_cons, List.drop_succ_cons, List.drop_zero, cons_replicate_append,
    List.zipWith_append _ _ _ _ _ (by simp only [List.length_replicate]),
    zipWith_sub_replicate]
  conv_rhs => rw [show (200 : ℕ) = 199 + 1 from rfl, List.replicate_succ, List.cons_append]
  norm_num

/-- The RSI gains of the C3 series. -/
theorem c3gain : rsi_gain c3closes = List.replicate 200 0 ++ [0, 0, 0, 99 / 10, 0] := by
  unfold rsi_gain
  rw [c3deltas, List.map_append, List.map_replicate]
  norm_num

/-- The RSI losses of the C3 series. -/
theorem c3loss : rsi_loss c3closes = List.replicate 200 0 ++ [10, 0, 0, 0, 0] := by
  unfold rsi_loss
  rw [c3deltas, List.map_append, List.map_replicate]
  norm_num

/-- The average gain at the final C3 bar. -/
theorem c3avg_gain : (rsi_avg_gain c3closes 14)[204]? = some (some (99 / 140)) := by
  unfold rsi_avg_gain
  rw [calculate_ma_getElem _ _ _ (by rw [c3gain]; norm_num)]
  rw [c3gain]
  norm_num [List.drop_append_eq_append_drop, List.drop_replicate,
    List.take_append_eq_append_take, List.take_replicate, List.sum_append, List.sum_replicate]

/-- The average loss at the final C3 bar. -/
theorem c3avg_loss : (rsi_avg_loss c3closes 14)[204]? = some (some (5 / 7)) := by
  unfold rsi_avg_loss
  rw [calculate_ma_getElem _ _ _ (by rw [c3loss]; norm_num)]
  rw [c3loss]
  norm_num [List.drop_append_eq_append_drop, List.drop_replicate,
    List.take_append_eq_append_take, List.take_replicate, List.sum_append, List.sum_replicate]

/-- The RSI of the final C3 bar. -/
theorem c3rsi_last : (calculate_rsi c3closes 14).getLast? = some (some (9900 / 199)) := by
  have hlen : (calculate_rsi c3closes 14).length = 205 := by
    simp [calculate_rsi, c3closes_length]
  rw [List.getLast?_eq_getElem?, hlen]
  unfold calculate_rsi
  rw [List.getElem?_map, List.getElem?_range (by rw [c3closes_length]; norm_num),
    Option.map_some']
  rw [show (205 : ℕ) - 1 = 204 from rfl, c3avg_gain, c3avg_loss, option_join_some,
    option_join_some]
  norm_num

/-- The fast EMA of the C3 series. -/
theorem c3e12 : ewmMean c3closes 12 = List.replicate 200 100 ++
    [1280 / 13, 16420 / 169, 211040 / 2197, 13802003 / 142805, 180354472 / 1856465] := by
  rw [c3closes_cons]
  unfold ewmMean
  dsimp only
  rw [ewmFrom_const]
  conv_rhs => rw [show (200 : ℕ) = 199 + 1 from rfl, List.replicate_succ, List.cons_append]
  norm_num [ewmFrom]

/-- The slow EMA of the C3 series. -/
theorem c3e26 : ewmMean c3closes 26 = List.replicate 200 100 ++
    [2680 / 27, 71860 / 729, 1927720 / 19683, 260628317 / 2657205,
     7046617484 / 71744535] := by
  rw [c3closes_cons]
  unfold ewmMean
  dsimp only
  rw [ewmFrom_const]
  conv_rhs => rw [show (200 : ℕ) = 199 + 1 from rfl, List.replicate_succ, List.cons_append]
  norm_num [ewmFrom]

/-- The MACD line of the C3 series. -/
theorem c3macd_line :
    List.zipWith (fun a b => a - b) (ewmMean c3closes 12) (ewmMean c3closes 26)
      = List.replicate 200 0 ++ [-280 / 351, -174160 / 123201, -81300520 / 43243551,
          -108855085514 / 75892432005, -28470199724708 / 26638243633755] := by
  rw [c3e12, c3e26, List.zipWith_append _ _ _ _ _ (by simp only [List.length_replicate]),
    zipWith_sub_replicate]
  norm_num

/-- The MACD signal line of the C3 series. -/
theorem c3signal :
    ewmMean (List.replicate 200 0 ++ [-280 / 351, -174160 / 123201, -81300520 / 43243551,
        -108855085514 / 75892432005, -28470199724708 / 26638243633755]) 9
      = List.replicate 200 0 ++ [-56 / 351, -252784 / 616005, -761411336 / 1081088775,
          -1613296943314 / 1897310800125, -2976823901530556 / 3329780454219375] := by
  conv_lhs => rw [show (200 : ℕ) = 199 + 1 from rfl, List.replicate_succ, List.cons_append]
  unfold ewmMean
  dsimp only
  rw [ewmFrom_const]
  conv_rhs => rw [show (200 : ℕ) = 199 + 1 from rfl, List.replicate_succ, List.cons_append]
  norm_num [ewmFrom]

/-- The MACD histogram of the C3 series. -/
theorem c3hist :
    List.zipWith (fun a b => a - b)
      (List.replicate 200 (0 : ℚ) ++ [-280 / 351, -174160 / 123201, -81300520 / 43243551,
        -108855085514 / 75892432005, -28470199724708 / 26638243633755])
      (List.replicate 200 (0 : ℚ) ++ [-56 / 351, -252784 / 616005, -761411336 / 1081088775,
        -1613296943314 / 1897310800125, -2976823901530556 / 3329780454219375])
      = List.replicate 200 (0 : ℚ) ++ [-224 / 351, -618016 / 616005, -1271101664 / 1081088775,
          -1108080194536 / 1897310800125, -581951064057944 / 3329780454219375] := by
  rw [List.zipWith_append _ _ _ _ _ (by simp only [List.length_replicate]),
    zipWith_sub_replicate]
  norm_num

/-- The MACD crossover scan of the C3 series: a bearish crossover inside the
5-bar window (at the 199→200 transition), no bullish crossover, MACD negative
at the last bar, histogram rising. -/
theorem c3macdinfo : detect_macd_crossover (calculate_macd c3closes 12 26 9).1
    (calculate_macd c3closes 12 26 9).2.1 (calculate_macd c3closes 12 26 9).2.2 5
    = ⟨false, true, false, true⟩ := by
  have hm1 : (calculate_macd c3closes 12 26 9).1
      = List.replicate 200 0 ++ [-280 / 351, -174160 / 123201, -81300520 / 43243551,
          -108855085514 / 75892432005, -28470199724708 / 26638243633755] := by
    unfold calculate_macd
    exact c3macd_line
  have hm2 : (calculate_macd c3closes 12 26 9).2.1
      = List.replicate 200 0 ++ [-56 / 351, -252784 / 616005, -761411336 / 1081088775,
          -1613296943314 / 1897310800125, -2976823901530556 / 3329780454219375] := by
    unfold calculate_macd
    dsimp only
    rw [c3macd_line]
    exact c3signal
  have hm3 : (calculate_macd c3closes 12 26 9).2.2
      = List.replicate 200 0 ++ [-224 / 351, -618016 / 616005, -1271101664 / 1081088775,
          -1108080194536 / 1897310800125, -581951064057944 / 3329780454219375] := by
    unfold calculate_macd
    dsimp only
    rw [c3macd_line, c3signal]
    exact c3hist
  rw [hm1, hm2, hm3]
  unfold detect_macd_crossover
  have hlen : (List.replicate 200 (0 : ℚ) ++ [-280 / 351, -174160 / 123201,
      -81300520 / 43243551, -108855085514 / 75892432005,
      -28470199724708 / 26638243633755]).length = 205 := by
    simp only [List.length_append, List.length_replicate, List.length_cons,
      List.length_nil]
  rw [hlen]
  rw [if_neg (by norm_num)]
  norm_num [List.range_succ, List.foldl_append, List.foldl_cons, List.foldl_nil,
    macdInfoNone, getElem?_replicate_append_left, getElem?_replicate_append_right,
    List.length_append, List.length_replicate, List.getElem_append_right,
    List.getElem_append_left, List.getElem_replicate, List.getElem_cons_succ,
    List.getElem_cons_zero]

/-- The C3 frame's close column. -/
theorem c3df_closes : c3df.closes = c3closes := rfl

/-- The C3 frame's high column. -/
theorem c3df_highs : c3df.highs = c3highs := rfl

/-- The C3 frame's MA50 column. -/
theorem c3df_ma50 : c3df.ma50 = calculate_ma c3closes 50 := by
  simp only [c3df, calculate_ma50_ma200]

/-- The C3 frame's MA100 column. -/
theorem c3df_ma100 : c3df.ma100 = calculate_ma c3closes 100 := by
  simp only [c3df, calculate_ma50_ma200]

/-- The C3 frame's MA200 column. -/
theorem c3df_ma200 : c3df.ma200 = calculate_ma c3closes 200 := by
  simp only [c3df, calculate_ma50_ma200]

/-- The 52-week-high proximity points of the C3 frame: the early 5000 spike
makes the ratio 99.9/5000, far below the 15-point cap. -/
theorem c3high_points : highPoints (999 / 10) c3highs = 2997 / 10000 := by
  have hlen : c3highs.length = 205 := by
    norm_num [c3highs]
  have hmax : c3highs.max? = some 5000 := by
    unfold c3highs List.max?
    dsimp only
    rw [List.foldl_append, foldl_max_replicate]
    norm_num [List.foldl_cons, List.foldl_nil]
  unfold highPoints get_52_week_high
  rw [hlen, if_pos (by norm_num), hmax]
  norm_num [min_def]

/-- The indicator-confirmation total of the C3 frame: RSI 49.7 sits in the
40–50 band (+5) and the bearish MACD crossover contributes −10. -/
theorem c3indicator : indicatorConfirmationPoints c3df = -5 := by
  unfold indicatorConfirmationPoints
  dsimp only
  rw [c3df_closes, c3rsi_last, option_join_some, c3macdinfo]
  norm_num [rsiBandPoints, macdBandPoints]

/-- Rounding the C3 raw score to one decimal. -/
theorem c3round : pyRound1 (-1538900849 / 332830000) = -23 / 5 := by
  have hf : ⌊(-1538900849 : ℚ) / 332830000 * 10⌋ = -47 := by
    rw [Int.floor_eq_iff]
    norm_num
  have hr : roundHalfEven ((-1538900849 : ℚ) / 332830000 * 10) = -46 := by
    unfold roundHalfEven
    rw [hf]
    norm_num
  unfold pyRound1
  rw [hr]
  norm_num

/-- Claim C3 counterexample: on a 205-bar frame whose price dipped below the
200-day MA and recovered to just above it, with fundamentals off and the
indicator-confirmation flag on, `calculate_stock_score` returns −4.6: the
death-cross penalty (−20) and the bearish-MACD penalty (−10) outweigh the
small positive components, so the composite score is negative, outside the
claimed interval [0, 150]. -/
theorem C3_score_counterexample :
    (calculate_stock_score c3df (1000, 1000) false fundNone true).score = -23 / 5 ∧
    (calculate_stock_score c3df (1000, 1000) false fundNone true).score < 0 := by
  have h : (calculate_stock_score c3df (1000, 1000) false fundNone true).score = -23 / 5 := by
    unfold calculate_stock_score
    rw [c3df_closes, c3closes_last]
    dsimp only
    rw [c3df_ma200, c3ma200_last, option_join_some]
    dsimp only
    rw [if_pos (by norm_num : (999 / 10 : ℚ) > 99849 / 1000)]
    dsimp only
    simp only [c3df_ma50, c3df_ma100, c3ma50_last, c3ma100_last, option_join_some,
      c3slope, c3cross, c3ret60, c3ret120, c3df_highs, c3high_points, c3indicator]
    convert c3round using 2
    norm_num [triplePoints, rsPoints, min_def, max_def]
  exact ⟨h, by rw [h]; norm_num⟩

/-- Claim C10 witness: a held but unquoted ticker contributes exactly 0 to the
total value. -/
theorem C10_total_value_missing_price_witness :
    (⟨100, 50, [("A", ⟨3, 10⟩)], 0, 0, 100⟩ : Portfolio).get_total_value [("B", 7)]
      = Portfolio.get_total_value
          { (⟨100, 50, [("A", ⟨3, 10⟩)], 0, 0, 100⟩ : Portfolio) with
            holdings := [("A", (⟨3, 10⟩ : Holding))].filter fun e => e.1 ≠ "A" } [("B", 7)] :=
  (C10_total_value_missing_price (⟨100, 50, [("A", ⟨3, 10⟩)], 0, 0, 100⟩ : Portfolio)
    [("B", 7)] "A" (by simp [lookupA])).2

end Kavastu
